import Mathlib

/-!
# RESTCONF call-home client: accept / handshake / request-reply state machine

A shallow embedding of `clixon_restconf_callhome_client.c`.

* The file-scope variables of the C file (`_accepts`, `_n_accepts`, `_idle`,
  `_accept_timeout_s`, `_data_timeout_s`, `_event_trace`, `_event_f`,
  `_input_file`) and the function-local `static int seq` are fields of `State`.
* Every `fprintf(_event_f, ...)` on the open stream appends one `TraceEvent`
  to `State._event_f`; `render` gives the text that the format string of that
  call produces.
* `_event_f` is NULL unless `-e` is given (`State._event_f_NULL`). `main` sets
  `_event_trace` and `_event_f` together, so a `fprintf` behind
  `if (_event_trace)` finds the stream open (`State.event_f_set`). A `fprintf`
  that is not behind that test is handed NULL in a run without `-e`
  (undefined behaviour, in practice a segmentation fault): the process is
  killed there (`State.sigsegv`) and no later statement runs.
* The results of library calls whose outcome the program cannot control
  (`accept`, `SSL_new`, `SSL_set_alpn_protos`, `SSL_connect`, `SSL_get_error`,
  `SSL_get_verify_result`, `SSL_read`, `gettimeofday`) are inputs of the
  callbacks.  Library calls that act on the outside world (`SSL_write`,
  `SSL_shutdown`, `SSL_free`, `close`, `free`, `usleep`) are appended to
  `State.calls` in program order.
* The clixon event reactor (`clixon_event_reg_fd`, `clixon_event_unreg_fd`,
  `clixon_event_reg_timeout`, `clixon_event_unreg_timeout`, `clixon_exit_set`,
  `clixon_event_loop`) is a library outside this file; it is modelled as lists
  of registrations plus the exit flag.
* C `int` / `time_t` counters are `Int`; `malloc` is taken to succeed.
* The program is embedded as started with the mandatory `-c`, `-k`, `-C` and
  with `-f <file>`: the request file `_input_file` is open. The options `-n`,
  `-i`, `-t`, `-d`, `-e` are each present or absent (`Options`).
* A store outside an array is reported in the `oob` field of the `Result`;
  the array is then left as it was and the statements that follow are
  embedded as written.
-/

namespace Callhome

/-! ## Time -/

/-- The C `struct timeval`. -/
structure timeval where
  tv_sec : Int
  tv_usec : Int
  deriving DecidableEq, Repr

/-- The `timersub(a, b, result)` of `<sys/time.h>`. -/
def timersub (a b : timeval) : timeval :=
  let sec := a.tv_sec - b.tv_sec
  let usec := a.tv_usec - b.tv_usec
  if usec < 0 then { tv_sec := sec - 1, tv_usec := usec + 1000000 }
  else { tv_sec := sec, tv_usec := usec }

/-- The `timeradd(a, b, result)` of `<sys/time.h>`. -/
def timeradd (a b : timeval) : timeval :=
  let sec := a.tv_sec + b.tv_sec
  let usec := a.tv_usec + b.tv_usec
  if usec ≥ 1000000 then { tv_sec := sec + 1, tv_usec := usec - 1000000 }
  else { tv_sec := sec, tv_usec := usec }

/-- The `timercmp(a, b, <)` of `<sys/time.h>`. -/
def timercmp_lt (a b : timeval) : Bool :=
  if a.tv_sec = b.tv_sec then decide (a.tv_usec < b.tv_usec)
  else decide (a.tv_sec < b.tv_sec)

/-! ## Handles -/

/-- An `SSL *` that is not NULL; `Option SSL` is an `SSL *`. -/
abbrev SSL := Nat

/-- An `SSL_CTX *`. -/
abbrev SSL_CTX := Nat

/-- The C `tls_accept_handle`: user struct for context / accept. -/
structure tls_accept_handle where
  ta_ss : Int
  ta_ctx : SSL_CTX
  ta_t0 : timeval
  deriving DecidableEq, Repr

/-- The C `tls_session_data`: user connection-specific data handle. -/
structure tls_session_data where
  sd_s : Int
  sd_ssl : Option SSL
  sd_t0 : timeval
  deriving DecidableEq, Repr

/-! ## Trace -/

/-- The `<where>` word of a `Close:` line. -/
inductive CloseTag where
  | remote
  | local_
  deriving DecidableEq, Repr

/-- The three places that print an `Exit:` line. -/
inductive ExitOrigin where
  | reply_remote
  | reply_idle
  | timeout
  deriving DecidableEq, Repr

/-- One `fprintf(_event_f, ...)` call with its arguments. -/
inductive TraceEvent where
  | Accept (n : Int) (sec : Int)
  | Reply (seq : Int) (sec : Int)
  | Payload (buf : List Nat)
  | Close (n : Int) (tag : CloseTag) (sec : Int)
  | Exit (origin : ExitOrigin)
  deriving DecidableEq, Repr

/-- The conversion `%d` of an `int`. -/
def fmt_d (x : Int) : String := toString x

/-- The conversion `%lu` applied to a `time_t`: the value as unsigned 64 bit. -/
def fmt_lu (x : Int) : String := toString (x % 18446744073709551616).toNat

/-- The conversion `%s` of a `char *`: the bytes before the first NUL. -/
def fmt_s (buf : List Nat) : String :=
  String.mk ((buf.takeWhile (fun b => b ≠ 0)).map Char.ofNat)

/-- The word printed for a `CloseTag`. -/
def CloseTag.word : CloseTag → String
  | CloseTag.remote => "remote"
  | CloseTag.local_ => "local"

/-- The text after `Exit: `: `__FUNCTION__` and the suffix of the format. -/
def ExitOrigin.word : ExitOrigin → String
  | ExitOrigin.reply_remote => "tls_server_reply_cb remote"
  | ExitOrigin.reply_idle => "tls_server_reply_cb idle"
  | ExitOrigin.timeout => "tls_timeout_cb"

/-- The text written by the `fprintf` of each trace event. -/
def render : TraceEvent → String
  | TraceEvent.Accept n sec => "Accept: " ++ fmt_d n ++ " at t=" ++ fmt_lu sec ++ "\n"
  | TraceEvent.Reply seq sec => "Reply: " ++ fmt_d seq ++ " t=" ++ fmt_lu sec ++ "\n"
  | TraceEvent.Payload buf => fmt_s buf ++ "\n"
  | TraceEvent.Close n tag sec =>
      "Close: " ++ fmt_d n ++ " " ++ tag.word ++ " at t=" ++ fmt_lu sec ++ "\n"
  | TraceEvent.Exit origin => "Exit: " ++ origin.word ++ "\n"

/-! ## Reactor registrations and library calls -/

/-- The callbacks registered with the reactor. -/
inductive Callback where
  | tls_server_accept_cb
  | tls_server_reply_cb
  | tls_timeout_cb
  deriving DecidableEq, Repr

/-- The `void *arg` of a registration. -/
inductive CbArg where
  | ta (h : tls_accept_handle)
  | sd (d : tls_session_data)
  deriving DecidableEq, Repr

/-- One file-descriptor registration of the reactor. -/
structure FdEntry where
  fd : Int
  fn : Callback
  arg : CbArg
  deriving DecidableEq, Repr

/-- One timer registration of the reactor. -/
structure TimerEntry where
  t : timeval
  fn : Callback
  arg : CbArg
  deriving DecidableEq, Repr

/-- Library calls that act on the outside world, in program order. -/
inductive Call where
  | SSL_write (ssl : Option SSL) (buf : List Nat) (len : Nat)
  | SSL_shutdown (ssl : Option SSL)
  | SSL_free (ssl : Option SSL)
  | close (s : Int)
  | free_sd (sd : tls_session_data)
  | free_buf
  | usleep (usec : Nat)
  deriving DecidableEq, Repr

/-- A stdio stream opened for reading: its bytes and the read position. -/
structure FILE where
  data : List Nat
  pos : Nat
  deriving DecidableEq, Repr

/-! ## Program state -/

/-- The file-scope variables, the static `seq`, the reactor and the call log.
`_event_f_NULL` says that the pointer `_event_f` is NULL, `_event_f` holds
what was written to the stream, `sigsegv` that the process was killed by a
NULL dereference. `event_f_set` is what `main` establishes: `_event_trace` is
assigned only where `_event_f` is set to `stdout`. -/
structure State where
  _input_file : FILE
  _accepts : Int
  _n_accepts : Int
  _idle : Int
  _accept_timeout_s : Int
  _data_timeout_s : Int
  _event_trace : Int
  _event_f_NULL : Bool
  _event_f : List TraceEvent
  seq : Int
  clixon_exit : Int
  exit_status : Option Int
  sigsegv : Bool
  event_loop_ret : Option Int
  fds : List FdEntry
  timers : List TimerEntry
  calls : List Call
  event_f_set : _event_trace ≠ 0 → _event_f_NULL = false
  deriving DecidableEq, Repr

/-- What a function hands back: its return value, the state after it, and
whether one of its array stores was outside the array. -/
structure Result where
  retval : Int
  st : State
  oob : Bool
  deriving DecidableEq, Repr

/-- The call `fprintf(_event_f, ...)` on the open stream: append one record.
Every use is behind `if (_event_trace)`, where the stream is open by
`State.event_f_set`, or inside `fprintf_unguarded`. -/
def fprintf (st : State) (ev : TraceEvent) : State :=
  { st with _event_f := st._event_f ++ [ev] }

/-- The call `fprintf(_event_f, ...)` where it is not behind
`if (_event_trace)`: with `_event_f` NULL the call dereferences a null pointer
and the process is killed before anything is written (`none`); with the
stream open the record is appended. -/
def fprintf_unguarded (st : State) (ev : TraceEvent) : Option State :=
  if st._event_f_NULL then none else some (fprintf st ev)

/-- The process is killed by a NULL dereference inside a callback: the state
is the one reached so far, the callback does not return (`retval` is set to
-1). -/
def killed (st : State) (oob : Bool) : Result :=
  { retval := -1, st := { st with sigsegv := true }, oob := oob }

/-- Append one library call to the call log. -/
def call (st : State) (c : Call) : State :=
  { st with calls := st.calls ++ [c] }

/-- The reactor's `clixon_exit_set(nr)`. -/
def clixon_exit_set (st : State) (nr : Int) : State :=
  { st with clixon_exit := nr }

/-- The reactor's `clixon_event_reg_fd`: a new entry at the head of the list. -/
def clixon_event_reg_fd (fds : List FdEntry) (fd : Int) (fn : Callback) (arg : CbArg) :
    List FdEntry :=
  { fd := fd, fn := fn, arg := arg } :: fds

/-- The reactor's `clixon_event_unreg_fd`: drop the first entry with this
descriptor and callback. -/
def clixon_event_unreg_fd (fds : List FdEntry) (s : Int) (fn : Callback) : List FdEntry :=
  fds.eraseP (fun e => decide (e.fn = fn ∧ e.fd = s))

/-- The reactor's `clixon_event_reg_timeout`: insert in deadline order. -/
def clixon_event_reg_timeout (timers : List TimerEntry) (t : timeval) (fn : Callback)
    (arg : CbArg) : List TimerEntry :=
  match timers with
  | [] => [{ t := t, fn := fn, arg := arg }]
  | e1 :: rest =>
    if timercmp_lt t e1.t then { t := t, fn := fn, arg := arg } :: e1 :: rest
    else e1 :: clixon_event_reg_timeout rest t fn arg

/-- The reactor's `clixon_event_unreg_timeout`: drop the first entry with this
callback and argument. -/
def clixon_event_unreg_timeout (timers : List TimerEntry) (fn : Callback) (arg : CbArg) :
    List TimerEntry :=
  timers.eraseP (fun e => decide (e.fn = fn ∧ e.arg = arg))

/-! ## Buffers -/

/-- The `sizeof(buf)` of `char buf[1024]` in `tls_server_reply_cb`. -/
def SIZEOF_BUF : Nat := 1024

/-- The `buflen` of `read_data_file`: `int buflen = 1024; /* start size */`. -/
def BUFLEN : Nat := 1024

/-- The store `buf[i] = v` into an array of `size` bytes: the new contents, or
`none` when the index is outside the array. -/
def buf_store (size : Nat) (buf : List Nat) (i : Int) (v : Nat) : Option (List Nat) :=
  if 0 ≤ i ∧ i < (size : Int) then some (buf.set i.toNat v) else none

/-- The loop of `read_data_file`: one `fread` of one byte per round, stored at
`buf[len++]`, until `fread` returns 0. The first argument is what is left of
the file. -/
def read_data_file_loop : List Nat → List Nat → Nat → Bool → List Nat × Nat × Bool
  | [], buf, len, oob => (buf, len, oob)
  | ch :: rest, buf, len, oob =>
    let stored := buf_store BUFLEN buf (len : Int) ch
    read_data_file_loop rest (stored.getD buf) (len + 1) (oob || stored.isNone)

/-- The `rewind(fe)` of stdio. -/
def rewind (fe : FILE) : FILE := { fe with pos := 0 }

/-- The function `read_data_file`: a zeroed buffer of `buflen` bytes, the file
read from its beginning byte by byte. Gives the stream after the read, the
buffer, `*lenp` and whether a store was outside the buffer. -/
def read_data_file (fe : FILE) : FILE × List Nat × Nat × Bool :=
  let buf := List.replicate BUFLEN 0
  let fe := rewind fe
  let r := read_data_file_loop (fe.data.drop fe.pos) buf 0 false
  ({ fe with pos := fe.data.length }, r.1, r.2.1, r.2.2)

/-- The function `tls_write_file`, called with `fp = _input_file` at both call
sites: read the request file and write it to the TLS socket. A failing
`SSL_write` is only logged by the C code. -/
def tls_write_file (st : State) (ssl : Option SSL) : Result :=
  let r := read_data_file st._input_file
  let st := { st with _input_file := r.1 }
  let st := call st (Call.SSL_write ssl (r.2.1.take r.2.2.1) r.2.2.1)
  let st := call st Call.free_buf
  { retval := 0, st := st, oob := r.2.2.2 }

/-! ## The reply callback -/

/-- The function `tls_server_reply_cb(s, arg)` with `arg = sd`. The inputs `n`
and `rbuf` are the return value of `SSL_read(ssl, buf, sizeof(buf))` and the
contents of `buf` after it; `now` is the value of `gettimeofday`. The three
branches of the accept-limit policy each carry what follows the policy in the
source (`goto ok`, or `free(sd)` and the return); when the process is killed
in the `fprintf` of the `Exit:` line nothing follows. -/
def tls_server_reply_cb (st : State) (s : Int) (sd : tls_session_data)
    (n : Int) (rbuf : List Nat) (now : timeval) : Result :=
  let ssl := sd.sd_ssl
  if n < 0 then
    { retval := -1, st := st, oob := false }
  else
    let td := timersub now sd.sd_t0
    if n = 0 then
      let st := call st (Call.SSL_free ssl)
      let st := { st with fds := clixon_event_unreg_fd st.fds s Callback.tls_server_reply_cb }
      let st := if st._event_trace ≠ 0 then
          fprintf st (TraceEvent.Close st._n_accepts CloseTag.remote td.tv_sec)
        else st
      let st := call st (Call.close s)
      let st := call st (Call.free_sd sd)
      if st._accepts = 0 then { retval := 0, st := st, oob := false }
      else if st._accepts = 1 then
        let st := clixon_exit_set st 1
        match fprintf_unguarded st (TraceEvent.Exit ExitOrigin.reply_remote) with
        | none => killed st false
        | some st => { retval := 0, st := st, oob := false }
      else { retval := 0, st := { st with _accepts := st._accepts - 1 }, oob := false }
    else
      let st := { st with seq := st.seq + 1 }
      let stored := buf_store SIZEOF_BUF rbuf n 0
      let buf := stored.getD rbuf
      let oob := stored.isNone
      let st := if st._event_trace ≠ 0 then
          let st := fprintf st (TraceEvent.Reply st.seq td.tv_sec)
          if st._event_trace > 1 then fprintf st (TraceEvent.Payload buf) else st
        else st
      if sd.sd_t0.tv_sec + st._data_timeout_s > now.tv_sec then
        let st := call st (Call.usleep 100000)
        let w := tls_write_file st sd.sd_ssl
        if w.retval < 0 then { retval := -1, st := w.st, oob := oob || w.oob }
        else { retval := 0, st := w.st, oob := oob || w.oob }
      else if st._idle = 0 then
        let st := call st (Call.SSL_shutdown ssl)
        let st := call st (Call.SSL_free ssl)
        let st := { st with fds := clixon_event_unreg_fd st.fds s Callback.tls_server_reply_cb }
        let st := if st._event_trace ≠ 0 then
            fprintf st (TraceEvent.Close st._n_accepts CloseTag.local_ td.tv_sec)
          else st
        let st := call st (Call.close s)
        if st._accepts = 0 then
          { retval := 0, st := call st (Call.free_sd sd), oob := oob }
        else if st._accepts = 1 then
          let st := clixon_exit_set st 1
          match fprintf_unguarded st (TraceEvent.Exit ExitOrigin.reply_idle) with
          | none => killed st oob
          | some st => { retval := 0, st := call st (Call.free_sd sd), oob := oob }
        else
          { retval := 0, st := call { st with _accepts := st._accepts - 1 } (Call.free_sd sd),
            oob := oob }
      else
        { retval := 0, st := st, oob := oob }

/-! ## Handshake and accept -/

/-- The results of the library calls made while one connection is accepted. -/
structure AcceptEnv where
  accept_ret : Int
  SSL_new_ret : Option SSL
  SSL_set_alpn_protos_ret : Int
  SSL_connect_ret : Int
  SSL_get_error_ret : Int
  SSL_get_verify_result_ret : Int
  t0 : timeval
  now : timeval
  deriving DecidableEq, Repr

/-- The OpenSSL constant `X509_V_OK`. -/
def X509_V_OK : Int := 0

/-- The OpenSSL constant `SSL_ERROR_SSL`. -/
def SSL_ERROR_SSL : Int := 1

/-- The function `tls_ssl_init_connect(ctx, s, sslp)`: its return value and
the value of `*sslp` after it (`sslp0` is the value before). The local
`retval` starts at -1 and is assigned the result of `SSL_set_alpn_protos`. -/
def tls_ssl_init_connect (_ctx : SSL_CTX) (_s : Int) (env : AcceptEnv) (sslp0 : Option SSL) :
    Int × Option SSL :=
  let retval : Int := -1
  match env.SSL_new_ret with
  | none => (retval, sslp0)
  | some ssl =>
    let retval := env.SSL_set_alpn_protos_ret
    if retval ≠ 0 then (retval, sslp0)
    else if env.SSL_connect_ret < 1 then
      if env.SSL_get_error_ret = SSL_ERROR_SSL then (retval, sslp0)
      else (retval, sslp0)
    else if env.SSL_get_verify_result_ret ≠ X509_V_OK then (retval, sslp0)
    else (0, some ssl)

/-- The function `tls_timeout_cb`: print the `Exit:` line and `exit(200)`. -/
def tls_timeout_cb (st : State) : State :=
  match fprintf_unguarded st (TraceEvent.Exit ExitOrigin.timeout) with
  | none => { st with sigsegv := true }
  | some st => { st with exit_status := some 200 }

/-- The function `tls_client_timeout(arg)`: unregister the existing timeout,
register a new one at `now + _accept_timeout_s`. -/
def tls_client_timeout (st : State) (arg : CbArg) (now : timeval) : Result :=
  let st := { st with
    timers := clixon_event_unreg_timeout st.timers Callback.tls_timeout_cb arg }
  let t1 : timeval := { tv_sec := st._accept_timeout_s, tv_usec := 0 }
  let t := timeradd now t1
  let st := { st with
    timers := clixon_event_reg_timeout st.timers t Callback.tls_timeout_cb arg }
  { retval := 0, st := st, oob := false }

/-- The function `tls_server_accept_cb(ss, arg)` with `arg = ta`. -/
def tls_server_accept_cb (st : State) (_ss : Int) (ta : tls_accept_handle) (env : AcceptEnv) :
    Result :=
  let s := env.accept_ret
  if s < 0 then
    { retval := -1, st := st, oob := false }
  else
    let c := tls_ssl_init_connect ta.ta_ctx s env none
    let ssl := c.2
    if c.1 < 0 then
      { retval := -1, st := st, oob := false }
    else
      let sd : tls_session_data := { sd_s := s, sd_ssl := ssl, sd_t0 := env.t0 }
      let td := timersub sd.sd_t0 ta.ta_t0
      let st := { st with _n_accepts := st._n_accepts + 1 }
      let st := if st._event_trace ≠ 0 then
          fprintf st (TraceEvent.Accept st._n_accepts td.tv_sec)
        else st
      let w := tls_write_file st ssl
      if w.retval < 0 then { retval := -1, st := w.st, oob := w.oob }
      else
        let st := { w.st with
          fds := clixon_event_reg_fd w.st.fds s Callback.tls_server_reply_cb (CbArg.sd sd) }
        let t := tls_client_timeout st (CbArg.ta ta) env.now
        if t.retval < 0 then { retval := -1, st := t.st, oob := w.oob }
        else { retval := 0, st := t.st, oob := w.oob }

/-! ## Start-up -/

/-- The options of `main` that set file-scope variables: `-n`, `-i`, `-t`,
`-d`, `-e` (each `atoi(optarg)` when given, `none` when the option is absent).
`-e` also sets `_event_f = stdout`. -/
structure Options where
  n : Option Int
  i : Bool
  t : Option Int
  d : Option Int
  e : Option Int
  deriving DecidableEq, Repr

/-- The file-scope variables with their static initialisers, overridden by
the options, before anything is registered. -/
def initial_state (fp : FILE) (o : Options) : State :=
  { _input_file := fp
    _accepts := o.n.getD 1
    _n_accepts := 0
    _idle := if o.i then 1 else 0
    _accept_timeout_s := o.t.getD 60
    _data_timeout_s := o.d.getD 0
    _event_trace := o.e.getD 0
    _event_f_NULL := o.e.isNone
    _event_f := []
    seq := 0
    clixon_exit := 0
    exit_status := none
    sigsegv := false
    event_loop_ret := none
    fds := []
    timers := []
    calls := []
    event_f_set := by cases o.e <;> simp }

/-- The end of `main` before `clixon_event_loop`: register the accept socket,
arm the accept timeout. -/
def main_start (fp : FILE) (o : Options) (ta : tls_accept_handle) (now : timeval) : State :=
  let st := initial_state fp o
  let st := { st with
    fds := clixon_event_reg_fd st.fds ta.ta_ss Callback.tls_server_accept_cb (CbArg.ta ta) }
  (tls_client_timeout st (CbArg.ta ta) now).st

/-! ## The event loop -/

/-- What the reactor can observe: the accept socket readable (with the results
of the calls made by the accept callback), a data socket readable (with the
result of `SSL_read` and the time), or the head timer due. -/
inductive Input where
  | accept (env : AcceptEnv)
  | reply (s : Int) (n : Int) (rbuf : List Nat) (now : timeval)
  | timeout
  deriving DecidableEq, Repr

/-- The loop of `clixon_event_loop` dispatches while no exit was requested,
the process has not exited, was not killed, and no callback has failed. -/
def running (st : State) : Bool :=
  decide (st.clixon_exit ≠ 1) && st.exit_status.isNone && !st.sigsegv &&
    st.event_loop_ret.isNone

/-- The reactor after a callback: nothing more happens in a killed process;
otherwise a negative return value ends the loop with -1. -/
def dispatched (r : Result) : State :=
  if r.st.sigsegv then r.st
  else if r.retval < 0 then { r.st with event_loop_ret := some (-1) } else r.st

/-- One round of `clixon_event_loop`: the callback registered for the ready
descriptor (or the head timer) runs to completion. An input for which nothing
is registered, or any input once the loop has stopped, leaves the state as is. -/
def step (st : State) (i : Input) : State :=
  if running st then
    match i with
    | Input.accept env =>
      match st.fds.find? (fun e => decide (e.fn = Callback.tls_server_accept_cb)) with
      | some { fd := ss, fn := _, arg := CbArg.ta ta } =>
        dispatched (tls_server_accept_cb st ss ta env)
      | _ => st
    | Input.reply s n rbuf now =>
      match st.fds.find?
          (fun e => decide (e.fd = s ∧ e.fn = Callback.tls_server_reply_cb)) with
      | some { fd := _, fn := _, arg := CbArg.sd sd } =>
        dispatched (tls_server_reply_cb st s sd n rbuf now)
      | _ => st
    | Input.timeout =>
      match st.timers with
      | [] => st
      | _ :: rest => tls_timeout_cb { st with timers := rest }
  else st

/-- A run of the event loop over a sequence of inputs. -/
def run (st : State) (inputs : List Input) : State :=
  inputs.foldl step st

/-! ## Vocabulary of the specification -/

/-- A `Close:` trace event. -/
def TraceEvent.isClose : TraceEvent → Bool
  | TraceEvent.Close _ _ _ => true
  | _ => false

/-- A `Reply:` trace event. -/
def TraceEvent.isReply : TraceEvent → Bool
  | TraceEvent.Reply _ _ => true
  | _ => false

/-- An `Accept:` trace event. -/
def TraceEvent.isAccept : TraceEvent → Bool
  | TraceEvent.Accept _ _ => true
  | _ => false

/-- A payload record. -/
def TraceEvent.isPayload : TraceEvent → Bool
  | TraceEvent.Payload _ => true
  | _ => false

/-- An `Exit:` trace event. -/
def TraceEvent.isExit : TraceEvent → Bool
  | TraceEvent.Exit _ => true
  | _ => false

/-- An `Exit:` trace event printed by the accept-limit policy of the reply
callback (not the one of the accept timeout). -/
def TraceEvent.isPolicyExit : TraceEvent → Bool
  | TraceEvent.Exit ExitOrigin.reply_remote => true
  | TraceEvent.Exit ExitOrigin.reply_idle => true
  | _ => false

/-- The ordinal carried by a `Reply:` event. -/
def TraceEvent.replySeq : TraceEvent → Option Int
  | TraceEvent.Reply seq _ => some seq
  | _ => none

/-- The ordinals of the `Reply:` events of a trace, in order. -/
def reply_ordinals (tr : List TraceEvent) : List Int :=
  tr.filterMap TraceEvent.replySeq

/-- The accept-limit policy in the words of the specification: unlimited (0):
nothing; last permitted accept (1): exit requested, counter kept; otherwise
the counter goes down by one. Gives the new counter and whether exit is
requested. -/
def accept_limit_policy (accepts : Int) : Int × Bool :=
  if accepts = 0 then (accepts, false)
  else if accepts = 1 then (accepts, true)
  else (accepts - 1, false)

/-- A timestamp in microseconds. -/
def timeval.usec (t : timeval) : Int := t.tv_sec * 1000000 + t.tv_usec

/-- A timestamp as `gettimeofday` gives it: microseconds within one second. -/
def timeval.normal (t : timeval) : Prop := 0 ≤ t.tv_usec ∧ t.tv_usec < 1000000

/-- The data-timeout window in the words of the specification:
`now - connectionStart < D` seconds, on (seconds, microseconds) timestamps. -/
def window_open_spec (start now : timeval) (D : Int) : Prop :=
  now.usec - start.usec < D * 1000000

/-- The test the reply callback makes before it sends another request:
`sd->sd_t0.tv_sec + _data_timeout_s > now.tv_sec`. -/
def window_open_code (start now : timeval) (D : Int) : Prop :=
  start.tv_sec + D > now.tv_sec

/-- Split a line at single blanks. -/
def split_sp : List Char → List (List Char)
  | [] => [[]]
  | c :: cs =>
    match split_sp cs with
    | [] => [[c]]
    | w :: ws => if c = ' ' then [] :: w :: ws else (c :: w) :: ws

/-- A non-empty run of decimal digits. -/
def is_decimal (cs : List Char) : Bool :=
  !cs.isEmpty && cs.all Char.isDigit

/-- A decimal number with an optional minus sign. -/
def is_int (cs : List Char) : Bool :=
  match cs with
  | '-' :: r => is_decimal r
  | _ => is_decimal cs

/-- The form of a `Close:` line in the words of the specification and of the
header comment of the C file: `Close: <n> <where> <sec> at t=<sec>`. -/
def close_line_form (line : String) : Bool :=
  match split_sp (line.toList.filter (fun c => c ≠ '\n')) with
  | [c, n, w, sec, a, t] =>
    decide (c = "Close:".toList) && is_int n &&
      (decide (w = "remote".toList) || decide (w = "local".toList)) &&
      is_decimal sec && decide (a = "at".toList) &&
      decide (t.take 2 = "t=".toList) && is_decimal (t.drop 2)
  | _ => false

/-- An `SSL_write` call. -/
def Call.isWrite : Call → Bool
  | Call.SSL_write _ _ _ => true
  | _ => false

/-- A `close` call. -/
def Call.isClose : Call → Bool
  | Call.close _ => true
  | _ => false

/-- One invocation of a descriptor callback with the results of its library
calls. -/
inductive Invocation where
  | accept (ss : Int) (ta : tls_accept_handle) (env : AcceptEnv)
  | reply (s : Int) (sd : tls_session_data) (n : Int) (rbuf : List Nat) (now : timeval)
  deriving DecidableEq, Repr

/-- Run the callback of an invocation. -/
def invoke (st : State) : Invocation → Result
  | Invocation.accept ss ta env => tls_server_accept_cb st ss ta env
  | Invocation.reply s sd n rbuf now => tls_server_reply_cb st s sd n rbuf now

/-- Run a sequence of callback invocations one after the other. The sequence
is arbitrary: it is not restricted to what the reactor would dispatch
(registrations, a requested exit, a failed callback, a killed process). -/
def invoke_all (st : State) (invs : List Invocation) : State :=
  invs.foldl (fun st inv => (invoke st inv).st) st

/-- An invocation of the reply callback whose `SSL_read` gave at least one byte. -/
def Invocation.isPositiveRead : Invocation → Bool
  | Invocation.reply _ _ n _ _ => decide (0 < n)
  | _ => false

/-- The number of reply invocations in a sequence that read at least one byte. -/
def positive_reads (invs : List Invocation) : Nat :=
  invs.countP Invocation.isPositiveRead

/-! ## Sample inputs -/

/-- A request file of three bytes. -/
def sample_file : FILE := { data := [71, 69, 84], pos := 0 }

/-- An accept handle: listening socket 3, program start at t = 100 s. -/
def sample_ta : tls_accept_handle :=
  { ta_ss := 3, ta_ctx := 1, ta_t0 := { tv_sec := 100, tv_usec := 0 } }

/-- The options `-n n -d d -e e` and `-i` when `i` is set. -/
def sample_options (n d e : Int) (i : Bool) : Options :=
  { n := some n, i := i, t := none, d := some d, e := some e }

/-- None of `-n`, `-i`, `-t`, `-d`, `-e`: the static initialisers of the
program (`_accepts = 1`, no idle, data timeout 0, `_event_trace = 0`,
`_event_f` NULL). -/
def default_options : Options :=
  { n := none, i := false, t := none, d := none, e := none }

/-- The program after start-up without `-n`, `-i`, `-t`, `-d`, `-e`, at
t = 100 s. -/
def default_start : State :=
  main_start sample_file default_options sample_ta { tv_sec := 100, tv_usec := 1 }

/-- The program after start-up with `sample_options`, at t = 100 s. -/
def sample_start (n d e : Int) (i : Bool) : State :=
  main_start sample_file (sample_options n d e i) sample_ta { tv_sec := 100, tv_usec := 1 }

/-- An accept on which every library call succeeds: data socket `s`, accepted
at second `t`. -/
def sample_env (s t : Int) : AcceptEnv :=
  { accept_ret := s
    SSL_new_ret := some 7
    SSL_set_alpn_protos_ret := 0
    SSL_connect_ret := 1
    SSL_get_error_ret := 0
    SSL_get_verify_result_ret := 0
    t0 := { tv_sec := t, tv_usec := 0 }
    now := { tv_sec := t, tv_usec := 5 } }

/-- An accept whose TLS handshake fails: `SSL_connect` returns -1 with
`SSL_ERROR_SSL`. -/
def sample_env_handshake_fails (s t : Int) : AcceptEnv :=
  { sample_env s t with SSL_connect_ret := -1, SSL_get_error_ret := 1 }

/-- The session of data socket `s` accepted at second `t` by `sample_env`. -/
def sample_sd (s t : Int) : tls_session_data :=
  { sd_s := s, sd_ssl := some 7, sd_t0 := { tv_sec := t, tv_usec := 0 } }

/-- The default program after it has accepted one connection on socket 5 at
t = 101 s. -/
def default_accepted : State :=
  run default_start [Input.accept (sample_env 5 101)]

/-! ## Invariant of runs under an accept limit -/

/-- The invariant of a traced run with accept limit `N`: the counter is at
least 1, and either no exit was requested, the policy has printed no `Exit`
and the `Close` events plus the counter make `N`; or exit was requested and
the trace ends with the policy's `Exit`, preceded by `N` `Close` events. -/
def limit_inv (N : Int) (st : State) : Prop :=
  st._event_trace ≠ 0 ∧ 1 ≤ st._accepts ∧
  ((st.clixon_exit = 0 ∧ (∀ e ∈ st._event_f, e.isPolicyExit = false) ∧
      (st._event_f.countP TraceEvent.isClose : Int) + st._accepts = N) ∨
   (st.clixon_exit = 1 ∧ ∃ pre o, o ≠ ExitOrigin.timeout ∧
      st._event_f = pre ++ [TraceEvent.Exit o] ∧ (∀ e ∈ pre, e.isPolicyExit = false) ∧
      (pre.countP TraceEvent.isClose : Int) = N))

/-- Two connections one after the other: the first is answered with two bytes
(and, with `-d 0`, closed locally), the second is closed by the remote side. -/
def sample_inputs_two : List Input :=
  [ Input.accept (sample_env 5 101),
    Input.reply 5 2 [72, 73] { tv_sec := 102, tv_usec := 0 },
    Input.accept (sample_env 6 103),
    Input.reply 6 0 [] { tv_sec := 104, tv_usec := 0 } ]

/-- Two accepted connections, two positive reads and a remote close, as a
sequence of callback invocations. -/
def sample_invocations : List Invocation :=
  [ Invocation.accept 3 sample_ta (sample_env 5 101),
    Invocation.reply 5 (sample_sd 5 101) 2 [72, 73] { tv_sec := 102, tv_usec := 0 },
    Invocation.accept 3 sample_ta (sample_env 6 103),
    Invocation.reply 6 (sample_sd 6 103) 1 [72] { tv_sec := 104, tv_usec := 0 },
    Invocation.reply 5 (sample_sd 5 101) 0 [] { tv_sec := 105, tv_usec := 0 } ]

/-- A session accepted at 101.9 s on socket 5. -/
def sample_sd_late : tls_session_data :=
  { sd_s := 5, sd_ssl := some 7, sd_t0 := { tv_sec := 101, tv_usec := 900000 } }

/-- One device connects and answers, a second device connects while the first
session is idle, then the first device closes its connection. -/
def sample_inputs_overlap : List Input :=
  [ Input.accept (sample_env 5 101),
    Input.reply 5 2 [72, 73] { tv_sec := 102, tv_usec := 0 },
    Input.accept (sample_env 6 103),
    Input.reply 5 0 [] { tv_sec := 104, tv_usec := 0 } ]

/-! ## Invariant of the accept watchdog -/

/-- The registration that `main` makes for the accept socket. -/
def listener_entry (ta : tls_accept_handle) : FdEntry :=
  { fd := ta.ta_ss, fn := Callback.tls_server_accept_cb, arg := CbArg.ta ta }

/-- The timer that `tls_client_timeout(ta)` registers at time `now` with
accept timeout `T`: deadline `timeradd(now, {T, 0})`. -/
def watchdog_entry (ta : tls_accept_handle) (now : timeval) (T : Int) : TimerEntry :=
  { t := timeradd now { tv_sec := T, tv_usec := 0 }
    fn := Callback.tls_timeout_cb
    arg := CbArg.ta ta }

/-- A timer entry of the accept watchdog. -/
def TimerEntry.isWatchdog (e : TimerEntry) : Bool :=
  decide (e.fn = Callback.tls_timeout_cb)

/-- The invariant of the reactor in runs started by `main` with accept handle
`ta` and accept timeout `T`: at most one timer, every timer is the watchdog
with argument `ta`, the accept callback is registered with argument `ta` only,
and `_accept_timeout_s` is `T`. -/
def watchdog_inv (ta : tls_accept_handle) (T : Int) (st : State) : Prop :=
  st.timers.length ≤ 1 ∧
  (∀ e ∈ st.timers, e.fn = Callback.tls_timeout_cb ∧ e.arg = CbArg.ta ta) ∧
  (∀ e ∈ st.fds, e.fn = Callback.tls_server_accept_cb → e = listener_entry ta) ∧
  st._accept_timeout_s = T

/-- A request file of 1025 bytes, one more than the read buffer holds. -/
def sample_file_long : FILE := { data := List.replicate 1025 65, pos := 0 }

/-! # Theorems -/

/-! ## The trace stream -/

/-- The three cases of the trace stream: no `-e` (verbosity 0, stream NULL),
`-e 0` (verbosity 0, stream open), `-e` with a level other than 0. -/
theorem stream_cases (st : State) :
    (st._event_trace = 0 ∧ st._event_f_NULL = true) ∨
    (st._event_trace = 0 ∧ st._event_f_NULL = false) ∨
    (¬ st._event_trace = 0 ∧ st._event_f_NULL = false) := by
  by_cases ht : st._event_trace = 0
  · cases hnull : st._event_f_NULL
    · exact Or.inr (Or.inl ⟨ht, rfl⟩)
    · exact Or.inl ⟨ht, rfl⟩
  · exact Or.inr (Or.inr ⟨ht, st.event_f_set ht⟩)

/-- The timeout callback touches nothing but the trace, the exit status and
the kill flag; it writes its `Exit` when the stream is open. -/
theorem tls_timeout_cb_fields (st : State) :
    (tls_timeout_cb st).timers = st.timers ∧ (tls_timeout_cb st).fds = st.fds ∧
    (tls_timeout_cb st)._accept_timeout_s = st._accept_timeout_s ∧
    (tls_timeout_cb st)._event_trace = st._event_trace ∧
    (tls_timeout_cb st)._event_f = st._event_f ++
      (if st._event_f_NULL = true then [] else [TraceEvent.Exit ExitOrigin.timeout]) := by
  cases hnull : st._event_f_NULL <;>
    simp [tls_timeout_cb, fprintf, fprintf_unguarded, hnull]

/-! ## The request file -/

/-- A store inside the array gives the updated array. -/
theorem buf_store_in_bounds (size : Nat) (buf : List Nat) (i : Nat) (v : Nat) (h : i < size) :
    buf_store size buf (i : Int) v = some (buf.set i v) := by
  unfold buf_store
  have h1 : (0 : Int) ≤ (i : Int) ∧ (i : Int) < (size : Int) := ⟨by omega, by omega⟩
  simp [h1]

/-- A store outside the array is refused. -/
theorem buf_store_out_of_bounds (size : Nat) (buf : List Nat) (i : Nat) (v : Nat)
    (h : size ≤ i) : buf_store size buf (i : Int) v = none := by
  unfold buf_store
  have h1 : ¬ ((0 : Int) ≤ (i : Int) ∧ (i : Int) < (size : Int)) := by omega
  rw [if_neg h1]

/-- The first `len + 1` bytes after a store at index `len`. -/
theorem take_succ_set (buf : List Nat) (len : Nat) (ch : Nat) (h : len < buf.length) :
    (buf.set len ch).take (len + 1) = buf.take len ++ [ch] := by
  rw [List.take_succ, List.set_take, List.set_eq_of_length_le (by simp)]
  simp [h]

/-- One round of the loop of `read_data_file`. -/
theorem read_data_file_loop_cons (ch : Nat) (rest buf : List Nat) (len : Nat) (oob : Bool) :
    read_data_file_loop (ch :: rest) buf len oob =
      read_data_file_loop rest ((buf_store BUFLEN buf (len : Int) ch).getD buf) (len + 1)
        (oob || (buf_store BUFLEN buf (len : Int) ch).isNone) := rfl

/-- The loop of `read_data_file` while the file fits: the bytes of the file
follow what was stored before, `len` is their number, no store is outside. -/
theorem read_data_file_loop_fits (rest : List Nat) :
    ∀ (buf : List Nat) (len : Nat) (oob : Bool),
      buf.length = BUFLEN → len + rest.length ≤ BUFLEN →
      (read_data_file_loop rest buf len oob).1.take (len + rest.length) =
        buf.take len ++ rest ∧
      (read_data_file_loop rest buf len oob).2.1 = len + rest.length ∧
      (read_data_file_loop rest buf len oob).2.2 = oob := by
  induction rest with
  | nil =>
    intro buf len oob _ _
    refine ⟨?_, rfl, rfl⟩
    rw [List.append_nil]
    rfl
  | cons ch rest ih =>
    intro buf len oob hlen hfit
    simp only [List.length_cons] at hfit
    have hlt : len < BUFLEN := by omega
    rw [read_data_file_loop_cons, buf_store_in_bounds BUFLEN buf len ch hlt]
    simp only [Option.getD_some, Option.isNone_some, Bool.or_false]
    obtain ⟨h1, h2, h3⟩ := ih (buf.set len ch) (len + 1) oob (by simp [hlen]) (by omega)
    have e : len + (ch :: rest).length = len + 1 + rest.length := by
      simp only [List.length_cons]; omega
    refine ⟨?_, by rw [h2, e], h3⟩
    rw [e, h1, take_succ_set buf len ch (by omega)]
    simp

/-- The length reported by the loop of `read_data_file` is the number of
bytes read, whatever the size of the file, and a store falls outside the
buffer exactly when a byte is stored at an index of `BUFLEN` or more. -/
theorem read_data_file_loop_len (rest : List Nat) :
    ∀ (buf : List Nat) (len : Nat) (oob : Bool),
      (read_data_file_loop rest buf len oob).2.1 = len + rest.length ∧
      ((read_data_file_loop rest buf len oob).2.2 =
        (oob || decide (0 < rest.length ∧ BUFLEN < len + rest.length))) := by
  induction rest with
  | nil =>
    intro buf len oob
    refine ⟨rfl, ?_⟩
    show oob = (oob || decide (0 < 0 ∧ BUFLEN < len + 0))
    simp
  | cons ch rest ih =>
    intro buf len oob
    rw [read_data_file_loop_cons]
    have hl : len + (ch :: rest).length = len + 1 + rest.length := by
      simp only [List.length_cons]; omega
    obtain ⟨h1, h2⟩ := ih ((buf_store BUFLEN buf (len : Int) ch).getD buf) (len + 1)
      (oob || (buf_store BUFLEN buf (len : Int) ch).isNone)
    refine ⟨by rw [h1, hl], ?_⟩
    rw [h2, hl]
    by_cases hlt : len < BUFLEN
    · rw [buf_store_in_bounds BUFLEN buf len ch hlt]
      simp only [Option.isNone_some, Bool.or_false, List.length_cons]
      congr 1
      by_cases hr : 0 < rest.length
      · simp [hr]
      · have : ¬ BUFLEN < len + 1 + rest.length := by omega
        simp [hr, this]
    · rw [buf_store_out_of_bounds BUFLEN buf len ch (by omega)]
      have : BUFLEN < len + 1 + rest.length := by omega
      simp [this]

/-- A request file that fits the buffer is handed to `SSL_write` unchanged. -/
theorem read_data_file_fits (fe : FILE) (h : fe.data.length ≤ BUFLEN) :
    (read_data_file fe).2.1.take (read_data_file fe).2.2.1 = fe.data ∧
    (read_data_file fe).2.2.1 = fe.data.length ∧
    (read_data_file fe).2.2.2 = false := by
  obtain ⟨h1, h2, h3⟩ := read_data_file_loop_fits fe.data (List.replicate BUFLEN 0) 0 false
    (by simp) (by omega)
  simp only [read_data_file, rewind, List.drop_zero]
  refine ⟨?_, by simpa using h2, h3⟩
  rw [h2]
  simpa using h1

/-! ## The accept-limit policy at a session close -/

/-- C1 (defect). When `tls_server_reply_cb` closes a session (0-byte read, or
a positive read after the data-timeout test failed with `_idle` unset) in a
live process, besides events that are not `Exit` events (`added`): with
`_accepts = 0` it returns 0, the counter and the exit flag are unchanged and
no `Exit` is written; with any other value but 1 it returns 0, the counter
goes down by exactly one, the exit flag is unchanged and no `Exit` is written;
with `_accepts = 1` the exit flag is set to 1 and the counter is left as it
is, and then, if the trace stream is open, the trace ends with an `Exit`
naming the path (`remote` for the 0-byte read, `idle` for the local close) and
0 is returned; but if `_event_f` is NULL (no `-e`), the process is killed in
that `fprintf` and nothing is written. -/
theorem accept_limit_policy_on_close (st : State) (s : Int) (sd : tls_session_data)
    (n : Int) (rbuf : List Nat) (now : timeval) (hlive : st.sigsegv = false)
    (hclose : n = 0 ∨
      (0 < n ∧ ¬ window_open_code sd.sd_t0 now st._data_timeout_s ∧ st._idle = 0)) :
    ∃ added : List TraceEvent, (∀ e ∈ added, e.isExit = false) ∧
      (st._accepts = 0 →
        (tls_server_reply_cb st s sd n rbuf now).retval = 0 ∧
        (tls_server_reply_cb st s sd n rbuf now).st.sigsegv = false ∧
        (tls_server_reply_cb st s sd n rbuf now).st._accepts = st._accepts ∧
        (tls_server_reply_cb st s sd n rbuf now).st.clixon_exit = st.clixon_exit ∧
        (tls_server_reply_cb st s sd n rbuf now).st._event_f = st._event_f ++ added) ∧
      (st._accepts = 1 → st._event_f_NULL = false →
        (tls_server_reply_cb st s sd n rbuf now).retval = 0 ∧
        (tls_server_reply_cb st s sd n rbuf now).st.sigsegv = false ∧
        (tls_server_reply_cb st s sd n rbuf now).st._accepts = st._accepts ∧
        (tls_server_reply_cb st s sd n rbuf now).st.clixon_exit = 1 ∧
        (tls_server_reply_cb st s sd n rbuf now).st._event_f = st._event_f ++ added ++
          [TraceEvent.Exit
            (if n = 0 then ExitOrigin.reply_remote else ExitOrigin.reply_idle)]) ∧
      (st._accepts = 1 → st._event_f_NULL = true →
        (tls_server_reply_cb st s sd n rbuf now).st.sigsegv = true ∧
        (tls_server_reply_cb st s sd n rbuf now).st._accepts = st._accepts ∧
        (tls_server_reply_cb st s sd n rbuf now).st.clixon_exit = 1 ∧
        (tls_server_reply_cb st s sd n rbuf now).st._event_f = st._event_f) ∧
      (st._accepts ≠ 0 → st._accepts ≠ 1 →
        (tls_server_reply_cb st s sd n rbuf now).retval = 0 ∧
        (tls_server_reply_cb st s sd n rbuf now).st.sigsegv = false ∧
        (tls_server_reply_cb st s sd n rbuf now).st._accepts = st._accepts - 1 ∧
        (tls_server_reply_cb st s sd n rbuf now).st.clixon_exit = st.clixon_exit ∧
        (tls_server_reply_cb st s sd n rbuf now).st._event_f = st._event_f ++ added) := by
  rcases hclose with h0 | ⟨hpos, hwin, hidle⟩
  · subst h0
    refine ⟨if st._event_trace ≠ 0 then
        [TraceEvent.Close st._n_accepts CloseTag.remote (timersub now sd.sd_t0).tv_sec]
      else [], ?_, ?_⟩
    · by_cases ht : st._event_trace = 0 <;> simp [ht, TraceEvent.isExit]
    · rcases stream_cases st with ⟨ht, hnull⟩ | ⟨ht, hnull⟩ | ⟨ht, hnull⟩ <;>
        by_cases ha0 : st._accepts = 0 <;> by_cases ha1 : st._accepts = 1 <;>
        simp [tls_server_reply_cb, call, fprintf, fprintf_unguarded, killed, clixon_exit_set, hnull,
          hlive, ht, ha0, ha1]
  · have hn : ¬ n < 0 := by omega
    have hn0 : n ≠ 0 := by omega
    unfold window_open_code at hwin
    refine ⟨(if st._event_trace ≠ 0 then
        ([TraceEvent.Reply (st.seq + 1) (timersub now sd.sd_t0).tv_sec] ++
          if st._event_trace > 1 then
            [TraceEvent.Payload ((buf_store SIZEOF_BUF rbuf n 0).getD rbuf)] else [])
        else []) ++
        (if st._event_trace ≠ 0 then
          [TraceEvent.Close st._n_accepts CloseTag.local_ (timersub now sd.sd_t0).tv_sec]
        else []), ?_, ?_⟩
    · by_cases ht : st._event_trace = 0 <;> by_cases ht1 : st._event_trace > 1 <;>
        simp [ht, ht1, TraceEvent.isExit]
    · rcases stream_cases st with ⟨ht, hnull⟩ | ⟨ht, hnull⟩ | ⟨ht, hnull⟩ <;>
        by_cases ht1 : st._event_trace > 1 <;>
        by_cases ha0 : st._accepts = 0 <;> by_cases ha1 : st._accepts = 1 <;>
        simp [tls_server_reply_cb, call, fprintf, fprintf_unguarded, killed, clixon_exit_set, hnull,
          hlive, ht, ht1, ha0, ha1, hn, hn0, hwin, hidle]

/-- Failing input of C1: the program started without `-e` (`_accepts = 1`,
`_event_f` NULL), one connection accepted, then a 0-byte read on its socket:
the process is killed in the `fprintf` of the `Exit:` line. -/
theorem accept_limit_policy_on_close_witness :
    (default_accepted.sigsegv = false ∧
      ((0 : Int) = 0 ∨ ((0 : Int) < 0 ∧
        ¬ window_open_code (sample_sd 5 101).sd_t0 { tv_sec := 102, tv_usec := 0 }
          default_accepted._data_timeout_s ∧ default_accepted._idle = 0)) ∧
      default_accepted._accepts = 1 ∧ default_accepted._event_f_NULL = true) ∧
    (tls_server_reply_cb default_accepted 5 (sample_sd 5 101) 0 []
        { tv_sec := 102, tv_usec := 0 }).st.sigsegv = true ∧
    (tls_server_reply_cb default_accepted 5 (sample_sd 5 101) 0 []
        { tv_sec := 102, tv_usec := 0 }).st._event_f = [] :=
  ⟨⟨by decide, Or.inl rfl, by decide, by decide⟩,
    (accept_limit_policy_on_close default_accepted 5 (sample_sd 5 101) 0 []
      { tv_sec := 102, tv_usec := 0 } (by decide) (Or.inl rfl)).elim
      (fun _ h => ⟨(h.2.2.2.1 (by decide) (by decide)).1,
        (h.2.2.2.1 (by decide) (by decide)).2.2.2⟩)⟩

/-! ## Effects of the callbacks on the trace, the counter and the exit flag -/

/-- The effect of the reply callback of a traced program on the trace, the
counter and the exit flag: events that are neither `Close` nor `Exit`, then,
when the session was closed, a `Close` and the policy. -/
theorem reply_cb_effect (st : State) (s : Int) (sd : tls_session_data)
    (n : Int) (rbuf : List Nat) (now : timeval) (htr : st._event_trace ≠ 0) :
    ∃ (added : List TraceEvent) (closed : Bool) (tag : CloseTag) (o : ExitOrigin),
      (∀ e ∈ added, e.isClose = false ∧ e.isExit = false) ∧ o ≠ ExitOrigin.timeout ∧
      (tls_server_reply_cb st s sd n rbuf now).st._event_f = st._event_f ++ added ++
        (if closed then
          TraceEvent.Close st._n_accepts tag (timersub now sd.sd_t0).tv_sec ::
            (if st._accepts = 1 then [TraceEvent.Exit o] else [])
        else []) ∧
      (tls_server_reply_cb st s sd n rbuf now).st._accepts =
        (if closed = true ∧ st._accepts ≠ 0 ∧ st._accepts ≠ 1 then st._accepts - 1
          else st._accepts) ∧
      (tls_server_reply_cb st s sd n rbuf now).st.clixon_exit =
        (if closed = true ∧ st._accepts = 1 then 1 else st.clixon_exit) ∧
      (tls_server_reply_cb st s sd n rbuf now).st._event_trace = st._event_trace := by
  have hnull : st._event_f_NULL = false := st.event_f_set htr
  by_cases hneg : n < 0
  · exact ⟨[], false, CloseTag.remote, ExitOrigin.reply_remote, by simp, by decide,
      by simp [tls_server_reply_cb, hneg]⟩
  by_cases h0 : n = 0
  · refine ⟨[], true, CloseTag.remote, ExitOrigin.reply_remote, by simp, by decide, ?_⟩
    by_cases ha0 : st._accepts = 0 <;> by_cases ha1 : st._accepts = 1 <;>
      simp [tls_server_reply_cb, call, fprintf, fprintf_unguarded, killed, clixon_exit_set, hnull, htr, h0, ha0, ha1]
  by_cases hwin : sd.sd_t0.tv_sec + st._data_timeout_s > now.tv_sec
  · refine ⟨[TraceEvent.Reply (st.seq + 1) (timersub now sd.sd_t0).tv_sec] ++
          (if st._event_trace > 1 then
            [TraceEvent.Payload ((buf_store SIZEOF_BUF rbuf n 0).getD rbuf)] else []),
        false, CloseTag.remote, ExitOrigin.reply_remote, ?_, by decide, ?_⟩
    · by_cases ht1 : st._event_trace > 1 <;> simp [ht1, TraceEvent.isExit, TraceEvent.isClose]
    · by_cases ht1 : st._event_trace > 1 <;>
        simp [tls_server_reply_cb, tls_write_file, call, fprintf, htr, hneg, h0, hwin, ht1]
  by_cases hidle : st._idle = 0
  · refine ⟨[TraceEvent.Reply (st.seq + 1) (timersub now sd.sd_t0).tv_sec] ++
          (if st._event_trace > 1 then
            [TraceEvent.Payload ((buf_store SIZEOF_BUF rbuf n 0).getD rbuf)] else []),
        true, CloseTag.local_, ExitOrigin.reply_idle, ?_, by decide, ?_⟩
    · by_cases ht1 : st._event_trace > 1 <;> simp [ht1, TraceEvent.isExit, TraceEvent.isClose]
    · by_cases ht1 : st._event_trace > 1 <;> by_cases ha0 : st._accepts = 0 <;>
        by_cases ha1 : st._accepts = 1 <;>
        simp [tls_server_reply_cb, call, fprintf, fprintf_unguarded, killed, clixon_exit_set, hnull, htr, hneg, h0, hwin, ht1,
          hidle, ha0, ha1]
  · refine ⟨[TraceEvent.Reply (st.seq + 1) (timersub now sd.sd_t0).tv_sec] ++
          (if st._event_trace > 1 then
            [TraceEvent.Payload ((buf_store SIZEOF_BUF rbuf n 0).getD rbuf)] else []),
        false, CloseTag.remote, ExitOrigin.reply_remote, ?_, by decide, ?_⟩
    · by_cases ht1 : st._event_trace > 1 <;> simp [ht1, TraceEvent.isExit, TraceEvent.isClose]
    · by_cases ht1 : st._event_trace > 1 <;>
        simp [tls_server_reply_cb, call, fprintf, htr, hneg, h0, hwin, ht1, hidle]

/-- The accept callback writes at most `Accept` events and leaves the counter,
the exit flag, the verbosity and `seq` alone. -/
theorem accept_cb_effect (st : State) (ss : Int) (ta : tls_accept_handle) (env : AcceptEnv) :
    ∃ added : List TraceEvent, (∀ e ∈ added, e.isAccept = true) ∧
      (tls_server_accept_cb st ss ta env).st._event_f = st._event_f ++ added ∧
      (tls_server_accept_cb st ss ta env).st._accepts = st._accepts ∧
      (tls_server_accept_cb st ss ta env).st.clixon_exit = st.clixon_exit ∧
      (tls_server_accept_cb st ss ta env).st._event_trace = st._event_trace ∧
      (tls_server_accept_cb st ss ta env).st.seq = st.seq := by
  by_cases hs : env.accept_ret < 0
  · exact ⟨[], by simp, by simp [tls_server_accept_cb, hs]⟩
  by_cases hc : (tls_ssl_init_connect ta.ta_ctx env.accept_ret env none).1 < 0
  · exact ⟨[], by simp, by simp [tls_server_accept_cb, hs, hc]⟩
  by_cases htr : st._event_trace = 0
  · exact ⟨[], by simp, by
      simp [tls_server_accept_cb, tls_write_file, tls_client_timeout, call, fprintf, hs, hc, htr]⟩
  · exact ⟨[TraceEvent.Accept (st._n_accepts + 1)
        (timersub env.t0 ta.ta_t0).tv_sec], by simp [TraceEvent.isAccept], by
      simp [tls_server_accept_cb, tls_write_file, tls_client_timeout, call, fprintf, hs, hc, htr]⟩

/-! ## Runs under an accept limit -/

theorem isPolicyExit_of_isExit_false {e : TraceEvent} (h : e.isExit = false) :
    e.isPolicyExit = false := by
  cases e <;> simp_all [TraceEvent.isExit, TraceEvent.isPolicyExit]

/-- An `Accept` event is neither a `Close` nor an `Exit`. -/
theorem isClose_false_of_isAccept {e : TraceEvent} (h : e.isAccept = true) :
    e.isClose = false ∧ e.isExit = false := by
  cases e <;> simp_all [TraceEvent.isExit, TraceEvent.isClose, TraceEvent.isAccept]

/-- A list without `Close` events counts none. -/
theorem countP_isClose_eq_zero {l : List TraceEvent} (h : ∀ e ∈ l, e.isClose = false) :
    l.countP TraceEvent.isClose = 0 := by
  rw [List.countP_eq_zero]
  intro e he
  simp [h e he]

/-- The reactor does not touch the trace after a callback. -/
theorem dispatched_event_f (r : Result) : (dispatched r)._event_f = r.st._event_f := by
  unfold dispatched
  split
  · rfl
  · split <;> rfl

/-- The reactor does not touch the counter after a callback. -/
theorem dispatched_accepts (r : Result) : (dispatched r)._accepts = r.st._accepts := by
  unfold dispatched
  split
  · rfl
  · split <;> rfl

/-- The reactor does not touch the exit flag after a callback. -/
theorem dispatched_clixon_exit (r : Result) : (dispatched r).clixon_exit = r.st.clixon_exit := by
  unfold dispatched
  split
  · rfl
  · split <;> rfl

/-- The reactor does not touch the verbosity after a callback. -/
theorem dispatched_event_trace (r : Result) :
    (dispatched r)._event_trace = r.st._event_trace := by
  unfold dispatched
  split
  · rfl
  · split <;> rfl

/-- Events that are neither `Close` nor `Exit` keep the invariant. -/
theorem limit_inv_append (N : Int) (st st1 : State) (added : List TraceEvent)
    (hadd : ∀ e ∈ added, e.isClose = false ∧ e.isPolicyExit = false)
    (hr : st.clixon_exit ≠ 1)
    (hf : st1._event_f = st._event_f ++ added) (ha : st1._accepts = st._accepts)
    (hx : st1.clixon_exit = st.clixon_exit) (ht : st1._event_trace = st._event_trace)
    (h : limit_inv N st) : limit_inv N st1 := by
  obtain ⟨h1, h2, h3⟩ := h
  refine ⟨by rw [ht]; exact h1, by rw [ha]; exact h2, ?_⟩
  rcases h3 with ⟨hx0, hpe, hcnt⟩ | ⟨hx1, _⟩
  · left
    refine ⟨by rw [hx]; exact hx0, ?_, ?_⟩
    · intro e he
      rw [hf, List.mem_append] at he
      rcases he with he | he
      · exact hpe e he
      · exact (hadd e he).2
    · rw [hf, List.countP_append, countP_isClose_eq_zero (fun e he => (hadd e he).1), ha]
      simpa using hcnt
  · exact absurd hx1 hr

/-- The reply callback keeps the invariant while no exit was requested. -/
theorem limit_inv_reply (N : Int) (st : State) (s : Int) (sd : tls_session_data)
    (n : Int) (rbuf : List Nat) (now : timeval) (hr : st.clixon_exit ≠ 1)
    (h : limit_inv N st) : limit_inv N (tls_server_reply_cb st s sd n rbuf now).st := by
  obtain ⟨added, closed, tag, o, hadd, ho, hf, ha, hx, ht⟩ :=
    reply_cb_effect st s sd n rbuf now h.1
  have hadd2 : ∀ e ∈ added, e.isClose = false ∧ e.isPolicyExit = false :=
    fun e he => ⟨(hadd e he).1, isPolicyExit_of_isExit_false (hadd e he).2⟩
  cases closed with
  | false =>
    refine limit_inv_append N st _ added hadd2 hr ?_ ?_ ?_ ht h
    · simpa using hf
    · simpa using ha
    · simpa using hx
  | true =>
    obtain ⟨h1, h2, h3⟩ := h
    rcases h3 with ⟨hx0, hpe, hcnt⟩ | ⟨hx1, _⟩
    swap
    · exact absurd hx1 hr
    have hc0 := countP_isClose_eq_zero (fun e he => (hadd e he).1)
    by_cases ha1 : st._accepts = 1
    · simp only [ha1, if_true, and_true, and_false, if_false, true_and] at hf ha hx
      refine ⟨by rw [ht]; exact h1, by rw [ha]; simp [ha1], Or.inr ⟨by simpa using hx, ?_⟩⟩
      refine ⟨st._event_f ++ added ++
        [TraceEvent.Close st._n_accepts tag (timersub now sd.sd_t0).tv_sec], o, ho, ?_, ?_, ?_⟩
      · rw [hf]; simp
      · intro e he
        simp only [List.mem_append, List.mem_singleton] at he
        rcases he with (he | he) | he
        · exact hpe e he
        · exact (hadd2 e he).2
        · subst he; rfl
      · simp only [List.countP_append, hc0, List.countP_singleton, TraceEvent.isClose]
        simp
        omega
    · have ha0 : st._accepts ≠ 0 := by omega
      simp only [ha1, ha0, if_true, if_false, ne_eq, not_false_eq_true, and_self, and_true,
        and_false] at hf ha hx
      refine ⟨by rw [ht]; exact h1, by rw [ha]; omega, Or.inl ⟨by rw [hx]; exact hx0, ?_, ?_⟩⟩
      · intro e he
        rw [hf] at he
        simp only [List.mem_append, List.mem_singleton] at he
        rcases he with (he | he) | he
        · exact hpe e he
        · exact (hadd2 e he).2
        · subst he; rfl
      · rw [hf, ha]
        simp only [List.countP_append, hc0, List.countP_singleton, TraceEvent.isClose]
        simp
        omega

/-- The accept callback keeps the invariant while no exit was requested. -/
theorem limit_inv_accept (N : Int) (st : State) (ss : Int) (ta : tls_accept_handle)
    (env : AcceptEnv) (hr : st.clixon_exit ≠ 1)
    (h : limit_inv N st) : limit_inv N (tls_server_accept_cb st ss ta env).st := by
  obtain ⟨added, hadd, hf, ha, hx, ht, _⟩ := accept_cb_effect st ss ta env
  exact limit_inv_append N st _ added
    (fun e he => ⟨(isClose_false_of_isAccept (hadd e he)).1,
      isPolicyExit_of_isExit_false (isClose_false_of_isAccept (hadd e he)).2⟩) hr hf ha hx ht h

/-- The invariant does not depend on the return value of the loop. -/
theorem limit_inv_dispatched (N : Int) (r : Result) (h : limit_inv N r.st) :
    limit_inv N (dispatched r) := by
  unfold limit_inv at *
  simpa [dispatched_event_f, dispatched_accepts, dispatched_clixon_exit,
    dispatched_event_trace] using h

/-- One round of the event loop keeps the invariant. -/
theorem limit_inv_step (N : Int) (st : State) (i : Input) (h : limit_inv N st) :
    limit_inv N (step st i) := by
  unfold step
  by_cases hrun : running st = true
  swap
  · simpa [hrun] using h
  have hr : st.clixon_exit ≠ 1 := by
    simp [running] at hrun
    exact hrun.1.1.1
  simp only [hrun, if_true]
  cases i with
  | accept env =>
    simp only
    split
    · exact limit_inv_dispatched N _ (limit_inv_accept N st _ _ env hr h)
    · exact h
  | reply s n rbuf now =>
    simp only
    split
    · exact limit_inv_dispatched N _ (limit_inv_reply N st s _ n rbuf now hr h)
    · exact h
  | timeout =>
    simp only
    split
    · exact h
    · have hnull : st._event_f_NULL = false := st.event_f_set h.1
      refine limit_inv_append N st _ [TraceEvent.Exit ExitOrigin.timeout] ?_ hr ?_ ?_ ?_ ?_ h
      · simp [TraceEvent.isClose, TraceEvent.isPolicyExit]
      · simp [tls_timeout_cb, fprintf, fprintf_unguarded, hnull]
      · simp [tls_timeout_cb, fprintf, fprintf_unguarded, hnull]
      · simp [tls_timeout_cb, fprintf, fprintf_unguarded, hnull]
      · simp [tls_timeout_cb, fprintf, fprintf_unguarded, hnull]

/-- Every run of the event loop keeps the invariant. -/
theorem limit_inv_run (N : Int) (inputs : List Input) (st : State) (h : limit_inv N st) :
    limit_inv N (run st inputs) := by
  induction inputs generalizing st with
  | nil => exact h
  | cons i rest ih => exact ih (step st i) (limit_inv_step N st i h)

/-- The reactor does not touch the registrations after a callback. -/
theorem dispatched_fds (r : Result) : (dispatched r).fds = r.st.fds := by
  unfold dispatched
  split
  · rfl
  · split <;> rfl

/-- The reply callback leaves the registrations alone or unregisters its own
socket. -/
theorem reply_cb_fds (st : State) (s : Int) (sd : tls_session_data)
    (n : Int) (rbuf : List Nat) (now : timeval) :
    (tls_server_reply_cb st s sd n rbuf now).st.fds = st.fds ∨
    (tls_server_reply_cb st s sd n rbuf now).st.fds =
      clixon_event_unreg_fd st.fds s Callback.tls_server_reply_cb := by
  by_cases hneg : n < 0
  · left; simp [tls_server_reply_cb, hneg]
  by_cases h0 : n = 0
  · right
    rcases stream_cases st with ⟨ht, hnull⟩ | ⟨ht, hnull⟩ | ⟨ht, hnull⟩ <;> by_cases ha0 : st._accepts = 0 <;>
      by_cases ha1 : st._accepts = 1 <;>
      simp [tls_server_reply_cb, call, fprintf, fprintf_unguarded, killed, clixon_exit_set, hnull, h0, ht, ha0, ha1]
  by_cases hwin : sd.sd_t0.tv_sec + st._data_timeout_s > now.tv_sec
  · left
    rcases stream_cases st with ⟨ht, hnull⟩ | ⟨ht, hnull⟩ | ⟨ht, hnull⟩ <;> by_cases ht1 : st._event_trace > 1 <;>
      simp [tls_server_reply_cb, tls_write_file, call, fprintf, hneg, h0, hwin, ht, ht1]
  by_cases hidle : st._idle = 0
  · right
    rcases stream_cases st with ⟨ht, hnull⟩ | ⟨ht, hnull⟩ | ⟨ht, hnull⟩ <;> by_cases ht1 : st._event_trace > 1 <;>
      by_cases ha0 : st._accepts = 0 <;> by_cases ha1 : st._accepts = 1 <;>
      simp [tls_server_reply_cb, call, fprintf, fprintf_unguarded, killed, clixon_exit_set, hnull, hneg, h0, hwin, ht, ht1,
        hidle, ha0, ha1]
  · left
    rcases stream_cases st with ⟨ht, hnull⟩ | ⟨ht, hnull⟩ | ⟨ht, hnull⟩ <;> by_cases ht1 : st._event_trace > 1 <;>
      simp [tls_server_reply_cb, call, fprintf, hneg, h0, hwin, ht, ht1, hidle]

/-- The accept callback leaves the registrations alone or adds the reply
callback for the accepted socket. -/
theorem accept_cb_fds (st : State) (ss : Int) (ta : tls_accept_handle) (env : AcceptEnv) :
    (tls_server_accept_cb st ss ta env).st.fds = st.fds ∨
    ∃ sd, (tls_server_accept_cb st ss ta env).st.fds =
      clixon_event_reg_fd st.fds env.accept_ret Callback.tls_server_reply_cb (CbArg.sd sd) := by
  by_cases hs : env.accept_ret < 0
  · left; simp [tls_server_accept_cb, hs]
  by_cases hc : (tls_ssl_init_connect ta.ta_ctx env.accept_ret env none).1 < 0
  · left; simp [tls_server_accept_cb, hs, hc]
  right
  refine ⟨{ sd_s := env.accept_ret
            sd_ssl := (tls_ssl_init_connect ta.ta_ctx env.accept_ret env none).2
            sd_t0 := env.t0 }, ?_⟩
  by_cases htr : st._event_trace = 0 <;>
    simp [tls_server_accept_cb, tls_write_file, tls_client_timeout, call, fprintf, hs, hc, htr]

/-- No callback removes a registration of the accept callback. -/
theorem listener_kept_step (st : State) (i : Input) (e : FdEntry)
    (hfn : e.fn = Callback.tls_server_accept_cb) (he : e ∈ st.fds) : e ∈ (step st i).fds := by
  unfold step
  split
  swap
  · exact he
  cases i with
  | accept env =>
    simp only
    split
    · rw [dispatched_fds]
      rcases accept_cb_fds st _ _ env with h | ⟨sd, h⟩
      · rw [h]; exact he
      · rw [h]; exact List.mem_cons_of_mem _ he
    · exact he
  | reply s n rbuf now =>
    simp only
    split
    · rw [dispatched_fds]
      rcases reply_cb_fds st s _ n rbuf now with h | h
      · rw [h]; exact he
      · rw [h]
        unfold clixon_event_unreg_fd
        rw [List.mem_eraseP_of_neg]
        · exact he
        · simp [hfn]
    · exact he
  | timeout =>
    simp only
    split
    · exact he
    · rw [(tls_timeout_cb_fields _).2.1]
      exact he

/-- No run removes a registration of the accept callback. -/
theorem listener_kept_run (inputs : List Input) (st : State) (e : FdEntry)
    (hfn : e.fn = Callback.tls_server_accept_cb) (he : e ∈ st.fds) :
    e ∈ (run st inputs).fds := by
  induction inputs generalizing st with
  | nil => exact he
  | cons i rest ih => exact ih (step st i) (listener_kept_step st i e hfn he)

/-- C2. In every run of the event loop started with `_accepts = N > 0`, trace
verbosity at least 1, no exit requested and an empty trace: the counter is
never negative; every `Exit` event of the accept-limit policy is preceded by
exactly `N` `Close` events; there are never more than `N` `Close` events and
loop exit is requested exactly when the `N`-th one has been written (so not
after an earlier one); and the accept callback stays registered. -/
theorem exactly_N_closes_before_exit (N : Int) (st0 : State) (inputs : List Input)
    (hN : 0 < N) (hacc : st0._accepts = N) (htr : 1 ≤ st0._event_trace)
    (hex : st0.clixon_exit = 0) (hev : st0._event_f = []) :
    0 ≤ (run st0 inputs)._accepts ∧
    (∀ pre e post, (run st0 inputs)._event_f = pre ++ e :: post → e.isPolicyExit = true →
        (pre.countP TraceEvent.isClose : Int) = N) ∧
    (((run st0 inputs)._event_f.countP TraceEvent.isClose : Int) ≤ N) ∧
    ((run st0 inputs).clixon_exit =
      if ((run st0 inputs)._event_f.countP TraceEvent.isClose : Int) = N then 1 else 0) ∧
    (∀ e ∈ st0.fds, e.fn = Callback.tls_server_accept_cb → e ∈ (run st0 inputs).fds) := by
  have hinv0 : limit_inv N st0 :=
    ⟨by omega, by omega, Or.inl ⟨hex, by simp [hev], by simp [hev, hacc]⟩⟩
  obtain ⟨_, h2, h3⟩ := limit_inv_run N inputs st0 hinv0
  refine ⟨by omega, ?_, ?_, ?_, fun e he hfn => listener_kept_run inputs st0 e hfn he⟩
  · intro pre e post hdec hpe
    rcases h3 with ⟨_, hno, _⟩ | ⟨_, pre0, o, _, hf, hno, hcnt⟩
    · have hmem : e ∈ (run st0 inputs)._event_f := by rw [hdec]; simp
      rw [hno e hmem] at hpe
      exact absurd hpe (by decide)
    · rw [hf] at hdec
      rcases List.eq_nil_or_concat post with hp | ⟨L, b, hp⟩
      · subst hp
        have h := List.append_inj' hdec rfl
        rw [← h.1]; exact hcnt
      · subst hp
        have h' : pre0 ++ [TraceEvent.Exit o] = (pre ++ e :: L) ++ [b] := by simpa using hdec
        have h := List.append_inj' h' rfl
        have he : e ∈ pre0 := by rw [h.1]; simp
        rw [hno e he] at hpe
        exact absurd hpe (by decide)
  · rcases h3 with ⟨_, _, hcnt⟩ | ⟨_, pre0, o, _, hf, _, hcnt⟩
    · omega
    · rw [hf]; simp [List.countP_append, TraceEvent.isClose, hcnt]
  · rcases h3 with ⟨hx, _, hcnt⟩ | ⟨hx, pre0, o, _, hf, _, hcnt⟩
    · rw [hx, if_neg]; omega
    · rw [hx, if_pos]
      rw [hf]; simp [List.countP_append, TraceEvent.isClose, hcnt]


/-- Witness of C2: `-n 2 -d 0 -e 1` and two connections. -/
theorem exactly_N_closes_before_exit_witness :
    ((0 : Int) < 2 ∧ (sample_start 2 0 1 false)._accepts = 2 ∧
      1 ≤ (sample_start 2 0 1 false)._event_trace ∧
      (sample_start 2 0 1 false).clixon_exit = 0 ∧ (sample_start 2 0 1 false)._event_f = []) ∧
    0 ≤ (run (sample_start 2 0 1 false) sample_inputs_two)._accepts :=
  ⟨by decide,
    (exactly_N_closes_before_exit 2 (sample_start 2 0 1 false) sample_inputs_two
      (by decide) (by decide) (by decide) (by decide) (by decide)).1⟩

/-! ## Reply sequence numbers -/

/-- The reply callback adds one to `seq` exactly on a positive read. -/
theorem reply_cb_seq (st : State) (s : Int) (sd : tls_session_data)
    (n : Int) (rbuf : List Nat) (now : timeval) :
    (tls_server_reply_cb st s sd n rbuf now).st.seq = (if 0 < n then st.seq + 1 else st.seq) ∧
    (tls_server_reply_cb st s sd n rbuf now).st._event_trace = st._event_trace := by
  by_cases hneg : n < 0
  · have : ¬ 0 < n := by omega
    simp [tls_server_reply_cb, hneg, this]
  by_cases h0 : n = 0
  · rcases stream_cases st with ⟨ht, hnull⟩ | ⟨ht, hnull⟩ | ⟨ht, hnull⟩ <;> by_cases ha0 : st._accepts = 0 <;>
      by_cases ha1 : st._accepts = 1 <;>
      simp [tls_server_reply_cb, call, fprintf, fprintf_unguarded, killed, clixon_exit_set, hnull, h0, ht, ha0, ha1]
  have hpos : 0 < n := by omega
  by_cases hwin : sd.sd_t0.tv_sec + st._data_timeout_s > now.tv_sec
  · rcases stream_cases st with ⟨ht, hnull⟩ | ⟨ht, hnull⟩ | ⟨ht, hnull⟩ <;> by_cases ht1 : st._event_trace > 1 <;>
      simp [tls_server_reply_cb, tls_write_file, call, fprintf, hneg, h0, hwin, ht, ht1, hpos]
  by_cases hidle : st._idle = 0
  · rcases stream_cases st with ⟨ht, hnull⟩ | ⟨ht, hnull⟩ | ⟨ht, hnull⟩ <;> by_cases ht1 : st._event_trace > 1 <;>
      by_cases ha0 : st._accepts = 0 <;> by_cases ha1 : st._accepts = 1 <;>
      simp [tls_server_reply_cb, call, fprintf, fprintf_unguarded, killed, clixon_exit_set, hnull, hneg, h0, hwin, ht, ht1,
        hidle, ha0, ha1, hpos]
  · rcases stream_cases st with ⟨ht, hnull⟩ | ⟨ht, hnull⟩ | ⟨ht, hnull⟩ <;> by_cases ht1 : st._event_trace > 1 <;>
      simp [tls_server_reply_cb, call, fprintf, hneg, h0, hwin, ht, ht1, hidle, hpos]

/-- The trace of the reply callback: on a positive read of a traced program
the first new event is the `Reply` with the new value of `seq`, and no other
new event is a `Reply`; in every other case no new event is a `Reply`. -/
theorem reply_cb_trace (st : State) (s : Int) (sd : tls_session_data)
    (n : Int) (rbuf : List Nat) (now : timeval) :
    ∃ rest : List TraceEvent, (∀ e ∈ rest, e.isReply = false) ∧
      (tls_server_reply_cb st s sd n rbuf now).st._event_f = st._event_f ++
        (if 0 < n ∧ st._event_trace ≠ 0 then
          [TraceEvent.Reply (st.seq + 1) (timersub now sd.sd_t0).tv_sec] else []) ++ rest := by
  by_cases hneg : n < 0
  · have : ¬ 0 < n := by omega
    exact ⟨[], by simp, by simp [tls_server_reply_cb, hneg, this]⟩
  by_cases h0 : n = 0
  · refine ⟨(if st._event_trace ≠ 0 then
        [TraceEvent.Close st._n_accepts CloseTag.remote (timersub now sd.sd_t0).tv_sec]
        else []) ++
        (if st._accepts = 1 ∧ st._event_f_NULL = false then [TraceEvent.Exit ExitOrigin.reply_remote] else []), ?_, ?_⟩
    · rcases stream_cases st with ⟨ht, hnull⟩ | ⟨ht, hnull⟩ | ⟨ht, hnull⟩ <;> by_cases ha1 : st._accepts = 1 <;>
        simp [ht, ha1, TraceEvent.isReply, hnull]
    · rcases stream_cases st with ⟨ht, hnull⟩ | ⟨ht, hnull⟩ | ⟨ht, hnull⟩ <;> by_cases ha0 : st._accepts = 0 <;>
        by_cases ha1 : st._accepts = 1 <;>
        simp [tls_server_reply_cb, call, fprintf, fprintf_unguarded, killed, clixon_exit_set, hnull, h0, ht, ha0, ha1]
  have hpos : 0 < n := by omega
  by_cases hwin : sd.sd_t0.tv_sec + st._data_timeout_s > now.tv_sec
  · refine ⟨(if st._event_trace > 1 ∧ st._event_trace ≠ 0 then
        [TraceEvent.Payload ((buf_store SIZEOF_BUF rbuf n 0).getD rbuf)] else []), ?_, ?_⟩
    · rcases stream_cases st with ⟨ht, hnull⟩ | ⟨ht, hnull⟩ | ⟨ht, hnull⟩ <;> by_cases ht1 : st._event_trace > 1 <;>
        simp [ht, ht1, TraceEvent.isReply]
    · rcases stream_cases st with ⟨ht, hnull⟩ | ⟨ht, hnull⟩ | ⟨ht, hnull⟩ <;> by_cases ht1 : st._event_trace > 1 <;>
        simp [tls_server_reply_cb, tls_write_file, call, fprintf, hneg, h0, hwin, ht, ht1, hpos]
  by_cases hidle : st._idle = 0
  · refine ⟨(if st._event_trace > 1 ∧ st._event_trace ≠ 0 then
        [TraceEvent.Payload ((buf_store SIZEOF_BUF rbuf n 0).getD rbuf)] else []) ++
        (if st._event_trace ≠ 0 then
        [TraceEvent.Close st._n_accepts CloseTag.local_ (timersub now sd.sd_t0).tv_sec]
        else []) ++
        (if st._accepts = 1 ∧ st._event_f_NULL = false then [TraceEvent.Exit ExitOrigin.reply_idle] else []), ?_, ?_⟩
    · rcases stream_cases st with ⟨ht, hnull⟩ | ⟨ht, hnull⟩ | ⟨ht, hnull⟩ <;> by_cases ht1 : st._event_trace > 1 <;>
        by_cases ha1 : st._accepts = 1 <;> simp [ht, ht1, ha1, TraceEvent.isReply, hnull]
    · rcases stream_cases st with ⟨ht, hnull⟩ | ⟨ht, hnull⟩ | ⟨ht, hnull⟩ <;> by_cases ht1 : st._event_trace > 1 <;>
        by_cases ha0 : st._accepts = 0 <;> by_cases ha1 : st._accepts = 1 <;>
        simp [tls_server_reply_cb, call, fprintf, fprintf_unguarded, killed, clixon_exit_set, hnull, hneg, h0, hwin, ht, ht1,
          hidle, ha0, ha1, hpos]
  · refine ⟨(if st._event_trace > 1 ∧ st._event_trace ≠ 0 then
        [TraceEvent.Payload ((buf_store SIZEOF_BUF rbuf n 0).getD rbuf)] else []), ?_, ?_⟩
    · rcases stream_cases st with ⟨ht, hnull⟩ | ⟨ht, hnull⟩ | ⟨ht, hnull⟩ <;> by_cases ht1 : st._event_trace > 1 <;>
        simp [ht, ht1, TraceEvent.isReply]
    · rcases stream_cases st with ⟨ht, hnull⟩ | ⟨ht, hnull⟩ | ⟨ht, hnull⟩ <;> by_cases ht1 : st._event_trace > 1 <;>
        simp [tls_server_reply_cb, call, fprintf, hneg, h0, hwin, ht, ht1, hidle, hpos]

/-- A list without `Reply` events has no ordinals. -/
theorem reply_ordinals_of_no_reply {l : List TraceEvent} (h : ∀ e ∈ l, e.isReply = false) :
    reply_ordinals l = [] := by
  unfold reply_ordinals
  rw [List.filterMap_eq_nil_iff]
  intro e he
  have := h e he
  cases e <;> simp_all [TraceEvent.isReply, TraceEvent.replySeq]

/-- An `Accept` event is not a `Reply` event. -/
theorem isReply_false_of_isAccept {e : TraceEvent} (h : e.isAccept = true) :
    e.isReply = false := by
  cases e <;> simp_all [TraceEvent.isReply, TraceEvent.isAccept]

/-- The effect of one invocation on `seq`, the verbosity and the ordinals of
the `Reply` events. -/
theorem invoke_seq (st : State) (inv : Invocation) :
    (invoke st inv).st.seq = st.seq + (if inv.isPositiveRead then 1 else 0) ∧
    (invoke st inv).st._event_trace = st._event_trace ∧
    reply_ordinals (invoke st inv).st._event_f = reply_ordinals st._event_f ++
      (if inv.isPositiveRead = true ∧ st._event_trace ≠ 0 then [st.seq + 1] else []) := by
  cases inv with
  | accept ss ta env =>
    obtain ⟨added, hadd, hf, _, _, ht, hs⟩ := accept_cb_effect st ss ta env
    refine ⟨by simp [invoke, Invocation.isPositiveRead, hs], by simp [invoke, ht], ?_⟩
    simp only [invoke, Invocation.isPositiveRead, hf]
    unfold reply_ordinals
    rw [List.filterMap_append]
    have := reply_ordinals_of_no_reply (fun e he => isReply_false_of_isAccept (hadd e he))
    unfold reply_ordinals at this
    simp [this]
  | reply s sd n rbuf now =>
    obtain ⟨hs, ht⟩ := reply_cb_seq st s sd n rbuf now
    obtain ⟨rest, hrest, hf⟩ := reply_cb_trace st s sd n rbuf now
    refine ⟨?_, by simp [invoke, ht], ?_⟩
    · simp only [invoke, Invocation.isPositiveRead, hs]
      by_cases hp : 0 < n <;> simp [hp]
    · simp only [invoke, Invocation.isPositiveRead, hf]
      have := reply_ordinals_of_no_reply hrest
      unfold reply_ordinals at this ⊢
      rw [List.filterMap_append, List.filterMap_append, this]
      by_cases hp : 0 < n <;> by_cases htr : st._event_trace = 0 <;>
        simp [hp, htr, TraceEvent.replySeq]

/-- Running one more invocation after a sequence. -/
theorem invoke_all_concat (st : State) (invs : List Invocation) (inv : Invocation) :
    invoke_all st (invs ++ [inv]) = (invoke (invoke_all st invs) inv).st := by
  simp [invoke_all, List.foldl_append]

/-- After any sequence of invocations `seq` has grown by the number of
positive reads, and the ordinals of the new `Reply` events of a traced program
are the consecutive numbers after the old `seq`. -/
theorem invoke_all_seq (st0 : State) (invs : List Invocation) :
    (invoke_all st0 invs).seq = st0.seq + (positive_reads invs : Int) ∧
    (invoke_all st0 invs)._event_trace = st0._event_trace ∧
    reply_ordinals (invoke_all st0 invs)._event_f = reply_ordinals st0._event_f ++
      (if st0._event_trace ≠ 0 then
        (List.range' 1 (positive_reads invs)).map (fun (k : Nat) => st0.seq + (k : Int)) else []) := by
  induction invs using List.reverseRecOn with
  | nil => simp [invoke_all, positive_reads]
  | append_singleton invs inv ih =>
    obtain ⟨ih1, ih2, ih3⟩ := ih
    obtain ⟨h1, h2, h3⟩ := invoke_seq (invoke_all st0 invs) inv
    rw [invoke_all_concat]
    refine ⟨?_, by rw [h2, ih2], ?_⟩
    · rw [h1, ih1]
      by_cases hp : inv.isPositiveRead = true
      · simp [positive_reads, List.countP_append, hp]; omega
      · simp [positive_reads, List.countP_append, hp]
    · rw [h3, ih3, ih2, ih1]
      by_cases hp : inv.isPositiveRead = true <;> by_cases htr : st0._event_trace = 0 <;>
        simp [positive_reads, List.countP_append, hp, htr, List.range'_concat]
      omega


/-- C3. From a start with `seq = 0` and an empty trace, after every sequence
of callback invocations (accepts and replies on any sessions): `seq` is the
number of invocations that read a positive number of bytes; the ordinals of
the `Reply` events written (they are written when the verbosity is not 0) are
1, 2, ..., in that order, hence strictly increasing; the next invocation that
reads `n > 0` bytes sets `seq` to that number plus one and writes the `Reply`
with that ordinal; an invocation that reads 0 bytes leaves `seq` alone and
writes no `Reply`; and the accept callback leaves `seq` alone. -/
theorem reply_ordinals_run_wide (st0 : State) (invs : List Invocation)
    (hseq : st0.seq = 0) (hev : st0._event_f = []) :
    (invoke_all st0 invs).seq = (positive_reads invs : Int) ∧
    reply_ordinals (invoke_all st0 invs)._event_f =
      (if st0._event_trace ≠ 0 then
        (List.range' 1 (positive_reads invs)).map (fun (k : Nat) => (k : Int)) else []) ∧
    List.Pairwise (fun a b => a < b) (reply_ordinals (invoke_all st0 invs)._event_f) ∧
    (∀ s sd n rbuf now, 0 < n →
      (tls_server_reply_cb (invoke_all st0 invs) s sd n rbuf now).st.seq =
        (positive_reads invs : Int) + 1 ∧
      ∃ rest : List TraceEvent, (∀ e ∈ rest, e.isReply = false) ∧
        (tls_server_reply_cb (invoke_all st0 invs) s sd n rbuf now).st._event_f =
          (invoke_all st0 invs)._event_f ++
          (if st0._event_trace ≠ 0 then
            [TraceEvent.Reply ((positive_reads invs : Int) + 1) (timersub now sd.sd_t0).tv_sec]
          else []) ++ rest) ∧
    (∀ s sd rbuf now,
      (tls_server_reply_cb (invoke_all st0 invs) s sd 0 rbuf now).st.seq =
        (invoke_all st0 invs).seq ∧
      ∃ rest : List TraceEvent, (∀ e ∈ rest, e.isReply = false) ∧
        (tls_server_reply_cb (invoke_all st0 invs) s sd 0 rbuf now).st._event_f =
          (invoke_all st0 invs)._event_f ++ rest) ∧
    (∀ ss ta env,
      (tls_server_accept_cb (invoke_all st0 invs) ss ta env).st.seq =
        (invoke_all st0 invs).seq) := by
  obtain ⟨h1, h2, h3⟩ := invoke_all_seq st0 invs
  have hord : reply_ordinals (invoke_all st0 invs)._event_f =
      (if st0._event_trace ≠ 0 then
        (List.range' 1 (positive_reads invs)).map (fun (k : Nat) => (k : Int)) else []) := by
    rw [h3, hev, hseq]
    simp [reply_ordinals]
  refine ⟨by rw [h1, hseq]; simp, hord, ?_, ?_, ?_, ?_⟩
  · rw [hord]
    split
    · rw [List.pairwise_map]
      refine List.Pairwise.imp ?_ (List.pairwise_lt_range' 1 (positive_reads invs))
      intro a b hab
      exact_mod_cast hab
    · exact List.Pairwise.nil
  · intro s sd n rbuf now hn
    obtain ⟨hs, _⟩ := reply_cb_seq (invoke_all st0 invs) s sd n rbuf now
    obtain ⟨rest, hrest, hf⟩ := reply_cb_trace (invoke_all st0 invs) s sd n rbuf now
    refine ⟨by rw [hs, h1, hseq]; simp [hn], rest, hrest, ?_⟩
    rw [hf, h2, h1, hseq]
    simp [hn]
  · intro s sd rbuf now
    obtain ⟨hs, _⟩ := reply_cb_seq (invoke_all st0 invs) s sd 0 rbuf now
    obtain ⟨rest, hrest, hf⟩ := reply_cb_trace (invoke_all st0 invs) s sd 0 rbuf now
    exact ⟨by simpa using hs, rest, hrest, by simpa using hf⟩
  · intro ss ta env
    obtain ⟨_, _, _, _, _, _, hs⟩ := accept_cb_effect (invoke_all st0 invs) ss ta env
    exact hs

/-- Witness of C3: `-n 0 -i -e 1` and the sample invocations. -/
theorem reply_ordinals_run_wide_witness :
    ((sample_start 0 0 1 true).seq = 0 ∧ (sample_start 0 0 1 true)._event_f = []) ∧
    reply_ordinals (invoke_all (sample_start 0 0 1 true) sample_invocations)._event_f =
      (if (sample_start 0 0 1 true)._event_trace ≠ 0 then
        (List.range' 1 (positive_reads sample_invocations)).map (fun (k : Nat) => (k : Int)) else []) :=
  ⟨by decide,
    (reply_ordinals_run_wide (sample_start 0 0 1 true) sample_invocations
      (by decide) (by decide)).2.1⟩

/-! ## The decision after a reply -/

/-- Erasing the first element that satisfies `p` leaves one such element
fewer. -/
theorem countP_eraseP_self {α : Type} (p : α → Bool) (l : List α) :
    (l.eraseP p).countP p = l.countP p - 1 := by
  induction l with
  | nil => simp
  | cons a rest ih =>
    by_cases h : p a = true
    · simp [List.eraseP_cons, List.countP_cons, h]
    · simp [List.eraseP_cons, List.countP_cons, h, ih]

/-- Unregistering removes one registration of the callback for the socket,
when there is one. -/
theorem countP_unreg_fd (fds : List FdEntry) (s : Int) (fn : Callback) :
    (clixon_event_unreg_fd fds s fn).countP (fun e => decide (e.fn = fn ∧ e.fd = s)) =
      fds.countP (fun e => decide (e.fn = fn ∧ e.fd = s)) - 1 :=
  countP_eraseP_self _ fds

/-- The test on whole seconds implies the window of the specification, for
timestamps with microseconds in range. -/
theorem window_spec_of_code (start now : timeval) (D : Int)
    (hs : start.normal) (hnow : now.normal) (hwin : window_open_code start now D) :
    window_open_spec start now D := by
  unfold window_open_code at hwin
  unfold timeval.normal at hs hnow
  unfold window_open_spec timeval.usec
  omega

/-- Counterexample to C4 as stated: data timeout 2 s, connection start at
101.9 s, a one-byte reply at 103.1 s. The elapsed time 1.2 s is less than 2 s,
yet no request is sent: the session is shut down and closed. -/
theorem resend_window_counterexample :
    (0 : Int) < 1 ∧
    window_open_spec sample_sd_late.sd_t0 { tv_sec := 103, tv_usec := 100000 }
      (sample_start 1 2 1 false)._data_timeout_s ∧
    (tls_server_reply_cb (sample_start 1 2 1 false) 5 sample_sd_late 1 [72]
      { tv_sec := 103, tv_usec := 100000 }).st.calls =
      [Call.SSL_shutdown (some 7), Call.SSL_free (some 7), Call.close 5,
        Call.free_sd sample_sd_late] := by
  refine ⟨by decide, ?_, by decide⟩
  unfold window_open_spec timeval.usec
  decide

/-- C4, amended. For every positive-length reply: if
`sd_t0.tv_sec + _data_timeout_s > now.tv_sec` (whole seconds, microseconds not
compared) the callback sleeps, sends the request file again on the same
session (the bytes of the file, when it fits the read buffer), keeps the
socket registered, writes no `Close` or `Exit` and returns 0; otherwise it
makes no `SSL_write`. For timestamps with microseconds in
range a re-send implies that less than `_data_timeout_s` seconds have elapsed
since connection start. -/
theorem resend_on_whole_seconds (st : State) (s : Int) (sd : tls_session_data)
    (n : Int) (rbuf : List Nat) (now : timeval) (hn : 0 < n) :
    (window_open_code sd.sd_t0 now st._data_timeout_s →
      (tls_server_reply_cb st s sd n rbuf now).retval = 0 ∧
      (tls_server_reply_cb st s sd n rbuf now).st.calls = st.calls ++
        [Call.usleep 100000,
          Call.SSL_write sd.sd_ssl
            ((read_data_file st._input_file).2.1.take (read_data_file st._input_file).2.2.1)
            (read_data_file st._input_file).2.2.1,
          Call.free_buf] ∧
      (st._input_file.data.length ≤ BUFLEN →
        (read_data_file st._input_file).2.1.take (read_data_file st._input_file).2.2.1 =
          st._input_file.data) ∧
      (tls_server_reply_cb st s sd n rbuf now).st.fds = st.fds ∧
      ∃ added : List TraceEvent, (∀ e ∈ added, e.isClose = false ∧ e.isExit = false) ∧
        (tls_server_reply_cb st s sd n rbuf now).st._event_f = st._event_f ++ added) ∧
    (¬ window_open_code sd.sd_t0 now st._data_timeout_s →
      ∃ added : List Call, (∀ c ∈ added, c.isWrite = false) ∧
        (tls_server_reply_cb st s sd n rbuf now).st.calls = st.calls ++ added) ∧
    (sd.sd_t0.normal → now.normal →
      window_open_code sd.sd_t0 now st._data_timeout_s →
      window_open_spec sd.sd_t0 now st._data_timeout_s) := by
  have hneg : ¬ n < 0 := by omega
  have h0 : n ≠ 0 := by omega
  refine ⟨?_, ?_, ?_⟩
  · intro hwin
    unfold window_open_code at hwin
    refine ⟨?_, ?_, fun hfit => (read_data_file_fits st._input_file hfit).1, ?_,
      (if st._event_trace ≠ 0 then
        [TraceEvent.Reply (st.seq + 1) (timersub now sd.sd_t0).tv_sec] ++
          (if st._event_trace > 1 then
            [TraceEvent.Payload ((buf_store SIZEOF_BUF rbuf n 0).getD rbuf)] else [])
        else []), ?_, ?_⟩
    all_goals
      rcases stream_cases st with ⟨ht, hnull⟩ | ⟨ht, hnull⟩ | ⟨ht, hnull⟩ <;> by_cases ht1 : st._event_trace > 1 <;>
      simp [tls_server_reply_cb, tls_write_file, call, fprintf, hneg, h0, hwin, ht, ht1,
        TraceEvent.isClose, TraceEvent.isExit]
  · intro hwin
    unfold window_open_code at hwin
    by_cases hidle : st._idle = 0
    · refine ⟨[Call.SSL_shutdown sd.sd_ssl, Call.SSL_free sd.sd_ssl, Call.close s] ++
          (if st._accepts = 1 ∧ st._event_f_NULL = true then [] else [Call.free_sd sd]), ?_, ?_⟩
      · by_cases hk : st._accepts = 1 ∧ st._event_f_NULL = true <;> simp [hk, Call.isWrite]
      · rcases stream_cases st with ⟨ht, hnull⟩ | ⟨ht, hnull⟩ | ⟨ht, hnull⟩ <;>
          by_cases ht1 : st._event_trace > 1 <;>
          by_cases ha0 : st._accepts = 0 <;> by_cases ha1 : st._accepts = 1 <;>
          simp [tls_server_reply_cb, call, fprintf, fprintf_unguarded, killed, clixon_exit_set,
            hnull, hneg, h0, hwin, ht, ht1, hidle, ha0, ha1]
    · refine ⟨[], by simp, ?_⟩
      rcases stream_cases st with ⟨ht, hnull⟩ | ⟨ht, hnull⟩ | ⟨ht, hnull⟩ <;> by_cases ht1 : st._event_trace > 1 <;>
        simp [tls_server_reply_cb, call, fprintf, hneg, h0, hwin, ht, ht1, hidle]
  · exact window_spec_of_code sd.sd_t0 now st._data_timeout_s

/-- Witness of C4 amended: data timeout 2 s, start at 101 s, reply at 102 s. -/
theorem resend_on_whole_seconds_witness :
    (0 : Int) < 1 ∧
    (tls_server_reply_cb (sample_start 1 2 1 false) 5 (sample_sd 5 101) 1 [72]
      { tv_sec := 102, tv_usec := 0 }).st.fds = (sample_start 1 2 1 false).fds :=
  ⟨by decide,
    ((resend_on_whole_seconds (sample_start 1 2 1 false) 5 (sample_sd 5 101) 1 [72]
      { tv_sec := 102, tv_usec := 0 } (by decide)).1
      (by unfold window_open_code; decide)).2.2.2.1⟩

/-- C5 (defect). With `_data_timeout_s = 0` and `_idle` unset, for every
session of a live process and every time not earlier than the session start, a
reply of positive length makes the callback close the session in that
invocation: `SSL_shutdown`, `SSL_free` and `close(s)` are called (no
`SSL_write`) and the socket's reply callback is unregistered (one registration
fewer for that socket). Unless `_accepts = 1` with `_event_f` NULL, the
callback then calls `free(sd)` and returns 0; after the `Reply` record a
`Close` tagged `local` is written when the verbosity is not 0; and the
accept-limit policy is applied to the counter, the exit flag and the trace.
With `_accepts = 1` and `_event_f` NULL (no `-e`), the exit flag is set and the
process is killed in the `fprintf` of the `Exit:` line: `free(sd)` is not
reached, nothing is written and the callback does not return. -/
theorem local_close_when_no_data_timeout (st : State) (s : Int) (sd : tls_session_data)
    (n : Int) (rbuf : List Nat) (now : timeval)
    (hD : st._data_timeout_s = 0) (hidle : st._idle = 0) (hn : 0 < n)
    (hnow : timercmp_lt now sd.sd_t0 = false) (hlive : st.sigsegv = false) :
    (tls_server_reply_cb st s sd n rbuf now).st.fds =
      clixon_event_unreg_fd st.fds s Callback.tls_server_reply_cb ∧
    (tls_server_reply_cb st s sd n rbuf now).st.fds.countP
        (fun e => decide (e.fn = Callback.tls_server_reply_cb ∧ e.fd = s)) =
      st.fds.countP (fun e => decide (e.fn = Callback.tls_server_reply_cb ∧ e.fd = s)) - 1 ∧
    (¬ (st._accepts = 1 ∧ st._event_f_NULL = true) →
      (tls_server_reply_cb st s sd n rbuf now).retval = 0 ∧
      (tls_server_reply_cb st s sd n rbuf now).st.sigsegv = false ∧
      (tls_server_reply_cb st s sd n rbuf now).st.calls = st.calls ++
        [Call.SSL_shutdown sd.sd_ssl, Call.SSL_free sd.sd_ssl, Call.close s, Call.free_sd sd] ∧
      (tls_server_reply_cb st s sd n rbuf now).st._event_f = st._event_f ++
        (if st._event_trace ≠ 0 then
          TraceEvent.Reply (st.seq + 1) (timersub now sd.sd_t0).tv_sec ::
            (if st._event_trace > 1 then
              [TraceEvent.Payload ((buf_store SIZEOF_BUF rbuf n 0).getD rbuf)] else [])
          else []) ++
        (if st._event_trace ≠ 0 then
          [TraceEvent.Close st._n_accepts CloseTag.local_ (timersub now sd.sd_t0).tv_sec]
          else []) ++
        (if (accept_limit_policy st._accepts).2 = true then
          [TraceEvent.Exit ExitOrigin.reply_idle] else []) ∧
      (tls_server_reply_cb st s sd n rbuf now).st._accepts = (accept_limit_policy st._accepts).1 ∧
      (tls_server_reply_cb st s sd n rbuf now).st.clixon_exit =
        (if (accept_limit_policy st._accepts).2 = true then 1 else st.clixon_exit)) ∧
    (st._accepts = 1 → st._event_f_NULL = true →
      (tls_server_reply_cb st s sd n rbuf now).st.sigsegv = true ∧
      (tls_server_reply_cb st s sd n rbuf now).st.calls = st.calls ++
        [Call.SSL_shutdown sd.sd_ssl, Call.SSL_free sd.sd_ssl, Call.close s] ∧
      (tls_server_reply_cb st s sd n rbuf now).st._event_f = st._event_f ∧
      (tls_server_reply_cb st s sd n rbuf now).st._accepts = st._accepts ∧
      (tls_server_reply_cb st s sd n rbuf now).st.clixon_exit = 1) := by
  have hneg : ¬ n < 0 := by omega
  have h0 : n ≠ 0 := by omega
  have hwin : ¬ sd.sd_t0.tv_sec + st._data_timeout_s > now.tv_sec := by
    rw [hD]
    unfold timercmp_lt at hnow
    split at hnow
    · omega
    · simp at hnow; omega
  have hfds : (tls_server_reply_cb st s sd n rbuf now).st.fds =
      clixon_event_unreg_fd st.fds s Callback.tls_server_reply_cb := by
    rcases stream_cases st with ⟨ht, hnull⟩ | ⟨ht, hnull⟩ | ⟨ht, hnull⟩ <;>
      by_cases ht1 : st._event_trace > 1 <;>
      by_cases ha0 : st._accepts = 0 <;> by_cases ha1 : st._accepts = 1 <;>
      simp [tls_server_reply_cb, call, fprintf, fprintf_unguarded, killed, clixon_exit_set,
        hnull, hneg, h0, hwin, ht, ht1, hidle, ha0, ha1]
  refine ⟨hfds, by rw [hfds]; exact countP_unreg_fd st.fds s _, ?_, ?_⟩
  all_goals
    rcases stream_cases st with ⟨ht, hnull⟩ | ⟨ht, hnull⟩ | ⟨ht, hnull⟩ <;>
    by_cases ht1 : st._event_trace > 1 <;>
    by_cases ha0 : st._accepts = 0 <;> by_cases ha1 : st._accepts = 1 <;>
    simp [tls_server_reply_cb, call, fprintf, fprintf_unguarded, killed, clixon_exit_set,
      hnull, hlive, accept_limit_policy, hneg, h0, hwin, ht, ht1, hidle, ha0, ha1]

/-- Failing input of C5: the program started without `-e` and without `-d`
(`_accepts = 1`, `_data_timeout_s = 0`, `_event_f` NULL), one connection
accepted on socket 5 at 101 s, a two-byte reply at 102 s: the session is shut
down and closed, then the process is killed before `free(sd)`. -/
theorem local_close_when_no_data_timeout_witness :
    (default_accepted._data_timeout_s = 0 ∧ default_accepted._idle = 0 ∧ (0 : Int) < 2 ∧
      timercmp_lt { tv_sec := 102, tv_usec := 0 } (sample_sd 5 101).sd_t0 = false ∧
      default_accepted.sigsegv = false ∧
      default_accepted._accepts = 1 ∧ default_accepted._event_f_NULL = true) ∧
    (tls_server_reply_cb default_accepted 5 (sample_sd 5 101) 2 [72, 73]
        { tv_sec := 102, tv_usec := 0 }).st.sigsegv = true ∧
    (tls_server_reply_cb default_accepted 5 (sample_sd 5 101) 2 [72, 73]
        { tv_sec := 102, tv_usec := 0 }).st.calls = default_accepted.calls ++
      [Call.SSL_shutdown (sample_sd 5 101).sd_ssl, Call.SSL_free (sample_sd 5 101).sd_ssl,
        Call.close 5] :=
  ⟨by decide,
    ((local_close_when_no_data_timeout default_accepted 5 (sample_sd 5 101) 2 [72, 73]
      { tv_sec := 102, tv_usec := 0 } (by decide) (by decide) (by decide) (by decide)
      (by decide)).2.2.2 (by decide) (by decide)).1,
    ((local_close_when_no_data_timeout default_accepted 5 (sample_sd 5 101) 2 [72, 73]
      { tv_sec := 102, tv_usec := 0 } (by decide) (by decide) (by decide) (by decide)
      (by decide)).2.2.2 (by decide) (by decide)).2.1⟩

/-- C6. With `_idle` set, once the data-timeout test fails (which it does, for
timestamps with microseconds in range, whenever at least `_data_timeout_s`
seconds have elapsed since the session start), a reply of positive length
changes nothing but `seq` and the trace, to which only the `Reply` record (and
at verbosity above 1 the payload) is added: the registrations, the call log
(no `SSL_write`, no `close`), the counter and the exit flag are unchanged and
the callback returns 0. -/
theorem idle_session_untouched (st : State) (s : Int) (sd : tls_session_data)
    (n : Int) (rbuf : List Nat) (now : timeval)
    (hidle : st._idle ≠ 0) (hn : 0 < n)
    (hwin : ¬ window_open_code sd.sd_t0 now st._data_timeout_s ∨
      (sd.sd_t0.normal ∧ now.normal ∧ ¬ window_open_spec sd.sd_t0 now st._data_timeout_s)) :
    (tls_server_reply_cb st s sd n rbuf now).retval = 0 ∧
    (tls_server_reply_cb st s sd n rbuf now).st =
      { st with
        seq := st.seq + 1
        _event_f := st._event_f ++
          (if st._event_trace ≠ 0 then
            TraceEvent.Reply (st.seq + 1) (timersub now sd.sd_t0).tv_sec ::
              (if st._event_trace > 1 then
                [TraceEvent.Payload ((buf_store SIZEOF_BUF rbuf n 0).getD rbuf)] else [])
            else []) } ∧
    (tls_server_reply_cb st s sd n rbuf now).st.fds = st.fds ∧
    (tls_server_reply_cb st s sd n rbuf now).st.calls = st.calls ∧
    (tls_server_reply_cb st s sd n rbuf now).st._accepts = st._accepts ∧
    (tls_server_reply_cb st s sd n rbuf now).st.clixon_exit = st.clixon_exit ∧
    (∀ e ∈ (tls_server_reply_cb st s sd n rbuf now).st._event_f,
      (e.isClose = true ∨ e.isExit = true) → e ∈ st._event_f) := by
  have hneg : ¬ n < 0 := by omega
  have h0 : n ≠ 0 := by omega
  have hw : ¬ sd.sd_t0.tv_sec + st._data_timeout_s > now.tv_sec := by
    rcases hwin with h | ⟨h1, h2, h3⟩
    · exact h
    · exact fun h => h3 (window_spec_of_code sd.sd_t0 now st._data_timeout_s h1 h2 h)
  have hret : (tls_server_reply_cb st s sd n rbuf now).retval = 0 := by
    rcases stream_cases st with ⟨ht, hnull⟩ | ⟨ht, hnull⟩ | ⟨ht, hnull⟩ <;> by_cases ht1 : st._event_trace > 1 <;>
      simp [tls_server_reply_cb, call, fprintf, hneg, h0, hw, ht, ht1, hidle]
  have hst : (tls_server_reply_cb st s sd n rbuf now).st =
      { st with
        seq := st.seq + 1
        _event_f := st._event_f ++
          (if st._event_trace ≠ 0 then
            TraceEvent.Reply (st.seq + 1) (timersub now sd.sd_t0).tv_sec ::
              (if st._event_trace > 1 then
                [TraceEvent.Payload ((buf_store SIZEOF_BUF rbuf n 0).getD rbuf)] else [])
            else []) } := by
    rcases stream_cases st with ⟨ht, hnull⟩ | ⟨ht, hnull⟩ | ⟨ht, hnull⟩ <;> by_cases ht1 : st._event_trace > 1 <;>
      simp [tls_server_reply_cb, call, fprintf, hneg, h0, hw, ht, ht1, hidle]
  refine ⟨hret, hst, by rw [hst], by rw [hst], by rw [hst], by rw [hst], ?_⟩
  intro e he hce
  rw [hst] at he
  simp only [List.mem_append] at he
  rcases he with he | he
  · exact he
  · exfalso
    rcases stream_cases st with ⟨ht, hnull⟩ | ⟨ht, hnull⟩ | ⟨ht, hnull⟩ <;> by_cases ht1 : st._event_trace > 1 <;>
      simp [ht, ht1] at he
    · rcases he with he | he <;> subst he <;> simp [TraceEvent.isClose, TraceEvent.isExit] at hce
    · subst he; simp [TraceEvent.isClose, TraceEvent.isExit] at hce

/-- Witness of C6: `-n 1 -d 0 -i -e 2`, session started at 101 s, a two-byte
reply at 102 s. -/
theorem idle_session_untouched_witness :
    ((sample_start 1 0 2 true)._idle ≠ 0 ∧ (0 : Int) < 2 ∧
      ¬ window_open_code (sample_sd 5 101).sd_t0 { tv_sec := 102, tv_usec := 0 }
        (sample_start 1 0 2 true)._data_timeout_s) ∧
    (tls_server_reply_cb (sample_start 1 0 2 true) 5 (sample_sd 5 101) 2 [72, 73]
      { tv_sec := 102, tv_usec := 0 }).st.calls = (sample_start 1 0 2 true).calls :=
  ⟨⟨by decide, by decide, by unfold window_open_code; decide⟩,
    (idle_session_untouched (sample_start 1 0 2 true) 5 (sample_sd 5 101) 2 [72, 73]
      { tv_sec := 102, tv_usec := 0 } (by decide) (by decide)
      (Or.inl (by unfold window_open_code; decide))).2.2.2.1⟩

/-! ## Handshake failure, and the `Close:` line -/

/-- C7 (defect). When `SSL_new` and `SSL_set_alpn_protos` succeed and then the
handshake fails (`SSL_connect` below 1) or the verification result is not
`X509_V_OK`, `tls_ssl_init_connect` returns 0, not a negative value, and
leaves `*sslp` NULL: `retval` was overwritten with the 0 of
`SSL_set_alpn_protos`. `tls_server_accept_cb` then goes on as after a good
handshake: `_n_accepts` is incremented, the `Accept` event is written (when
traced), the request is written with the NULL `SSL *`, the reply callback is
registered for the socket, and 0 is returned. -/
theorem handshake_failure_not_reported (st : State) (ss : Int) (ta : tls_accept_handle)
    (env : AcceptEnv) (ssl : SSL)
    (hacc : 0 ≤ env.accept_ret) (hnew : env.SSL_new_ret = some ssl)
    (halpn : env.SSL_set_alpn_protos_ret = 0)
    (hfail : env.SSL_connect_ret < 1 ∨ env.SSL_get_verify_result_ret ≠ X509_V_OK) :
    tls_ssl_init_connect ta.ta_ctx env.accept_ret env none = (0, none) ∧
    (tls_server_accept_cb st ss ta env).retval = 0 ∧
    (tls_server_accept_cb st ss ta env).st._n_accepts = st._n_accepts + 1 ∧
    (tls_server_accept_cb st ss ta env).st._event_f = st._event_f ++
      (if st._event_trace ≠ 0 then
        [TraceEvent.Accept (st._n_accepts + 1) (timersub env.t0 ta.ta_t0).tv_sec] else []) ∧
    (tls_server_accept_cb st ss ta env).st.calls = st.calls ++
      [Call.SSL_write none
        ((read_data_file st._input_file).2.1.take (read_data_file st._input_file).2.2.1)
        (read_data_file st._input_file).2.2.1,
       Call.free_buf] ∧
    (tls_server_accept_cb st ss ta env).st.fds =
      { fd := env.accept_ret, fn := Callback.tls_server_reply_cb,
        arg := CbArg.sd { sd_s := env.accept_ret, sd_ssl := none, sd_t0 := env.t0 } } ::
        st.fds := by
  have hs : ¬ env.accept_ret < 0 := by omega
  have hc : tls_ssl_init_connect ta.ta_ctx env.accept_ret env none = (0, none) := by
    unfold tls_ssl_init_connect
    simp only [hnew, halpn]
    rcases hfail with h | h
    · simp [h]
    · by_cases h1 : env.SSL_connect_ret < 1
      · simp [h1]
      · simp [h1, h]
  refine ⟨hc, ?_⟩
  by_cases htr : st._event_trace = 0 <;>
    simp [tls_server_accept_cb, tls_write_file, tls_client_timeout, call, fprintf,
      clixon_event_reg_fd, hs, hc, htr]

/-- Failing input of C7: socket 5 accepted, `SSL_connect` returns -1 with
`SSL_ERROR_SSL`; the accept is counted all the same. -/
theorem handshake_failure_not_reported_witness :
    ((0 : Int) ≤ (sample_env_handshake_fails 5 101).accept_ret ∧
      (sample_env_handshake_fails 5 101).SSL_new_ret = some 7 ∧
      (sample_env_handshake_fails 5 101).SSL_set_alpn_protos_ret = 0 ∧
      (sample_env_handshake_fails 5 101).SSL_connect_ret < 1) ∧
    (tls_server_accept_cb (sample_start 1 0 1 false) 3 sample_ta
      (sample_env_handshake_fails 5 101)).st._n_accepts =
        (sample_start 1 0 1 false)._n_accepts + 1 :=
  ⟨by decide,
    (handshake_failure_not_reported (sample_start 1 0 1 false) 3 sample_ta
      (sample_env_handshake_fails 5 101) 7 (by decide) (by decide) (by decide)
      (Or.inl (by decide))).2.2.1⟩

/-- C8 (defect). With `-n 0 -i -e 1`: connection 1 (socket 5) is accepted and
answers, connection 2 (socket 6) is accepted, then connection 1 is closed by
the remote side. The `Close` event of connection 1 carries 2, the value of
`_n_accepts`, not the ordinal 1 of the connection that closed. -/
theorem close_number_is_accept_total :
    (run (sample_start 0 0 1 true) sample_inputs_overlap)._event_f =
      [TraceEvent.Accept 1 1, TraceEvent.Reply 1 1, TraceEvent.Accept 2 3,
        TraceEvent.Close 2 CloseTag.remote 3] ∧
    (run (sample_start 0 0 1 true) sample_inputs_overlap).fds.map (fun e => e.fd) = [6, 3] := by
  decide

/-- C9 (defect). The `Close:` lines that the two closing paths print, for
connection 1 closed one second after its start, are `Close: 1 remote at t=1`
and `Close: 1 local at t=1`: there is no seconds field between the tag and
`at`, so neither has the documented form `Close: <n> <where> <sec> at t=<sec>`
(which the line `Close: 1 remote 1 at t=1` has). -/
theorem close_line_lacks_seconds_field :
    (run (sample_start 1 0 1 false)
        [Input.accept (sample_env 5 101),
          Input.reply 5 0 [] { tv_sec := 102, tv_usec := 0 }])._event_f.map render =
      ["Accept: 1 at t=1\n", "Close: 1 remote at t=1\n",
        "Exit: tls_server_reply_cb remote\n"] ∧
    (run (sample_start 1 0 1 false)
        [Input.accept (sample_env 5 101),
          Input.reply 5 2 [72, 73] { tv_sec := 102, tv_usec := 0 }])._event_f.map render =
      ["Accept: 1 at t=1\n", "Reply: 1 t=1\n", "Close: 1 local at t=1\n",
        "Exit: tls_server_reply_cb idle\n"] ∧
    close_line_form "Close: 1 remote at t=1\n" = false ∧
    close_line_form "Close: 1 local at t=1\n" = false ∧
    close_line_form "Close: 1 remote 1 at t=1\n" = true := by
  decide

/-! ## What is written at which verbosity -/

/-- At verbosity 0 the accept callback writes nothing. -/
theorem accept_cb_quiet (st : State) (ss : Int) (ta : tls_accept_handle) (env : AcceptEnv)
    (hv : st._event_trace = 0) :
    (tls_server_accept_cb st ss ta env).st._event_f = st._event_f := by
  by_cases hs : env.accept_ret < 0
  · simp [tls_server_accept_cb, hs]
  by_cases hc : (tls_ssl_init_connect ta.ta_ctx env.accept_ret env none).1 < 0
  · simp [tls_server_accept_cb, hs, hc]
  simp [tls_server_accept_cb, tls_write_file, tls_client_timeout, call, fprintf, hs, hc, hv]

/-- At verbosity 0 the reply callback writes nothing but the `Exit` of the
accept-limit policy. -/
theorem reply_cb_quiet (st : State) (s : Int) (sd : tls_session_data)
    (n : Int) (rbuf : List Nat) (now : timeval) (hv : st._event_trace = 0) :
    ∃ added : List TraceEvent, (∀ e ∈ added, e.isExit = true) ∧
      (tls_server_reply_cb st s sd n rbuf now).st._event_f = st._event_f ++ added := by
  by_cases hneg : n < 0
  · exact ⟨[], by simp, by simp [tls_server_reply_cb, hneg]⟩
  by_cases h0 : n = 0
  · refine ⟨(if st._accepts = 1 ∧ st._event_f_NULL = false then [TraceEvent.Exit ExitOrigin.reply_remote] else []), ?_, ?_⟩
    · by_cases hk : st._accepts = 1 ∧ st._event_f_NULL = false <;> simp [hk, TraceEvent.isExit]
    · rcases Bool.eq_false_or_eq_true st._event_f_NULL with hnull | hnull <;>
        by_cases ha0 : st._accepts = 0 <;> by_cases ha1 : st._accepts = 1 <;>
        simp [tls_server_reply_cb, call, fprintf, fprintf_unguarded, killed, clixon_exit_set,
          hnull, h0, hv, ha0, ha1]
  by_cases hwin : sd.sd_t0.tv_sec + st._data_timeout_s > now.tv_sec
  · exact ⟨[], by simp, by
      simp [tls_server_reply_cb, tls_write_file, call, fprintf, hneg, h0, hwin, hv]⟩
  by_cases hidle : st._idle = 0
  · refine ⟨(if st._accepts = 1 ∧ st._event_f_NULL = false then [TraceEvent.Exit ExitOrigin.reply_idle] else []), ?_, ?_⟩
    · by_cases hk : st._accepts = 1 ∧ st._event_f_NULL = false <;> simp [hk, TraceEvent.isExit]
    · rcases Bool.eq_false_or_eq_true st._event_f_NULL with hnull | hnull <;>
        by_cases ha0 : st._accepts = 0 <;> by_cases ha1 : st._accepts = 1 <;>
        simp [tls_server_reply_cb, call, fprintf, fprintf_unguarded, killed, clixon_exit_set,
          hnull, hneg, h0, hwin, hv, hidle, ha0, ha1]
  · exact ⟨[], by simp, by
      simp [tls_server_reply_cb, call, fprintf, hneg, h0, hwin, hv, hidle]⟩

/-- The reply callback writes the payload exactly on a positive read at a
verbosity above 1. -/
theorem reply_cb_payload (st : State) (s : Int) (sd : tls_session_data)
    (n : Int) (rbuf : List Nat) (now : timeval) :
    ∃ added : List TraceEvent,
      (tls_server_reply_cb st s sd n rbuf now).st._event_f = st._event_f ++ added ∧
      ((∃ e ∈ added, e.isPayload = true) ↔ (0 < n ∧ 1 < st._event_trace)) := by
  by_cases hneg : n < 0
  · have : ¬ 0 < n := by omega
    exact ⟨[], by simp [tls_server_reply_cb, hneg], by simp [this]⟩
  by_cases h0 : n = 0
  · refine ⟨(if st._event_trace ≠ 0 then
        [TraceEvent.Close st._n_accepts CloseTag.remote (timersub now sd.sd_t0).tv_sec]
        else []) ++
        (if st._accepts = 1 ∧ st._event_f_NULL = false then [TraceEvent.Exit ExitOrigin.reply_remote] else []), ?_, ?_⟩
    · rcases stream_cases st with ⟨ht, hnull⟩ | ⟨ht, hnull⟩ | ⟨ht, hnull⟩ <;> by_cases ha0 : st._accepts = 0 <;>
        by_cases ha1 : st._accepts = 1 <;>
        simp [tls_server_reply_cb, call, fprintf, fprintf_unguarded, killed, clixon_exit_set, hnull, h0, ht, ha0, ha1]
    · rcases stream_cases st with ⟨ht, hnull⟩ | ⟨ht, hnull⟩ | ⟨ht, hnull⟩ <;> by_cases ha1 : st._accepts = 1 <;>
        simp [ht, ha1, h0, TraceEvent.isPayload, hnull]
  have hpos : 0 < n := by omega
  by_cases hwin : sd.sd_t0.tv_sec + st._data_timeout_s > now.tv_sec
  · refine ⟨(if st._event_trace ≠ 0 then
        TraceEvent.Reply (st.seq + 1) (timersub now sd.sd_t0).tv_sec ::
          (if st._event_trace > 1 then
            [TraceEvent.Payload ((buf_store SIZEOF_BUF rbuf n 0).getD rbuf)] else [])
        else []), ?_, ?_⟩
    · rcases stream_cases st with ⟨ht, hnull⟩ | ⟨ht, hnull⟩ | ⟨ht, hnull⟩ <;> by_cases ht1 : st._event_trace > 1 <;>
        simp [tls_server_reply_cb, tls_write_file, call, fprintf, hneg, h0, hwin, ht, ht1]
    · rcases stream_cases st with ⟨ht, hnull⟩ | ⟨ht, hnull⟩ | ⟨ht, hnull⟩ <;> by_cases ht1 : st._event_trace > 1 <;>
        simp [ht, ht1, hpos, TraceEvent.isPayload]
  by_cases hidle : st._idle = 0
  · refine ⟨(if st._event_trace ≠ 0 then
        TraceEvent.Reply (st.seq + 1) (timersub now sd.sd_t0).tv_sec ::
          (if st._event_trace > 1 then
            [TraceEvent.Payload ((buf_store SIZEOF_BUF rbuf n 0).getD rbuf)] else [])
        else []) ++
        (if st._event_trace ≠ 0 then
        [TraceEvent.Close st._n_accepts CloseTag.local_ (timersub now sd.sd_t0).tv_sec]
        else []) ++
        (if st._accepts = 1 ∧ st._event_f_NULL = false then [TraceEvent.Exit ExitOrigin.reply_idle] else []), ?_, ?_⟩
    · rcases stream_cases st with ⟨ht, hnull⟩ | ⟨ht, hnull⟩ | ⟨ht, hnull⟩ <;> by_cases ht1 : st._event_trace > 1 <;>
        by_cases ha0 : st._accepts = 0 <;> by_cases ha1 : st._accepts = 1 <;>
        simp [tls_server_reply_cb, call, fprintf, fprintf_unguarded, killed, clixon_exit_set, hnull, hneg, h0, hwin, ht, ht1,
          hidle, ha0, ha1]
    · rcases stream_cases st with ⟨ht, hnull⟩ | ⟨ht, hnull⟩ | ⟨ht, hnull⟩ <;> by_cases ht1 : st._event_trace > 1 <;>
        by_cases ha1 : st._accepts = 1 <;>
        simp [ht, ht1, ha1, hpos, TraceEvent.isPayload, hnull]
  · refine ⟨(if st._event_trace ≠ 0 then
        TraceEvent.Reply (st.seq + 1) (timersub now sd.sd_t0).tv_sec ::
          (if st._event_trace > 1 then
            [TraceEvent.Payload ((buf_store SIZEOF_BUF rbuf n 0).getD rbuf)] else [])
        else []), ?_, ?_⟩
    · rcases stream_cases st with ⟨ht, hnull⟩ | ⟨ht, hnull⟩ | ⟨ht, hnull⟩ <;> by_cases ht1 : st._event_trace > 1 <;>
        simp [tls_server_reply_cb, call, fprintf, hneg, h0, hwin, ht, ht1, hidle]
    · rcases stream_cases st with ⟨ht, hnull⟩ | ⟨ht, hnull⟩ | ⟨ht, hnull⟩ <;> by_cases ht1 : st._event_trace > 1 <;>
        simp [ht, ht1, hpos, TraceEvent.isPayload]

/-- One round of the event loop leaves the verbosity alone. -/
theorem step_event_trace (st : State) (i : Input) :
    (step st i)._event_trace = st._event_trace := by
  unfold step
  split
  swap
  · rfl
  cases i with
  | accept env =>
    simp only
    split
    · rw [dispatched_event_trace]
      exact (accept_cb_effect st _ _ env).elim (fun _ h => h.2.2.2.2.1)
    · rfl
  | reply s n rbuf now =>
    simp only
    split
    · rw [dispatched_event_trace]
      exact (reply_cb_seq st s _ n rbuf now).2
    · rfl
  | timeout =>
    simp only
    split
    · rfl
    · exact (tls_timeout_cb_fields _).2.2.2.1

/-- At verbosity 0 one round of the event loop writes nothing but `Exit`
events. -/
theorem step_quiet (st : State) (i : Input) (hv : st._event_trace = 0) :
    ∃ added : List TraceEvent, (∀ e ∈ added, e.isExit = true) ∧
      (step st i)._event_f = st._event_f ++ added := by
  unfold step
  split
  swap
  · exact ⟨[], by simp, by simp⟩
  cases i with
  | accept env =>
    simp only
    split
    · rw [dispatched_event_f, accept_cb_quiet st _ _ env hv]
      exact ⟨[], by simp, by simp⟩
    · exact ⟨[], by simp, by simp⟩
  | reply s n rbuf now =>
    simp only
    split
    · rw [dispatched_event_f]
      exact reply_cb_quiet st s _ n rbuf now hv
    · exact ⟨[], by simp, by simp⟩
  | timeout =>
    simp only
    split
    · exact ⟨[], by simp, by simp⟩
    · refine ⟨if st._event_f_NULL = true then [] else [TraceEvent.Exit ExitOrigin.timeout],
        ?_, (tls_timeout_cb_fields _).2.2.2.2⟩
      cases hnull : st._event_f_NULL <;> simp [TraceEvent.isExit]

/-- At verbosity 0 a run of the event loop writes nothing but `Exit` events. -/
theorem run_quiet (inputs : List Input) (st : State) (hv : st._event_trace = 0) :
    ∃ added : List TraceEvent, (∀ e ∈ added, e.isExit = true) ∧
      (run st inputs)._event_f = st._event_f ++ added := by
  induction inputs generalizing st with
  | nil => exact ⟨[], by simp, by simp [run]⟩
  | cons i rest ih =>
    obtain ⟨a1, h1, hf1⟩ := step_quiet st i hv
    obtain ⟨a2, h2, hf2⟩ := ih (step st i) (by rw [step_event_trace]; exact hv)
    refine ⟨a1 ++ a2, ?_, ?_⟩
    · intro e he
      rcases List.mem_append.1 he with h | h
      · exact h1 e h
      · exact h2 e h
    · have : run st (i :: rest) = run (step st i) rest := rfl
      rw [this, hf2, hf1, List.append_assoc]

/-- Counterexample to C10 as stated: at verbosity 0 (`-e 0`) with `-n 1`, the
remote close of the one connection writes an `Exit` line, and so does the
accept timeout; and at verbosity 3 the payload is written. -/
theorem exit_written_at_verbosity_zero :
    (sample_start 1 0 0 false)._event_trace = 0 ∧
    (run (sample_start 1 0 0 false)
        [Input.accept (sample_env 5 101),
          Input.reply 5 0 [] { tv_sec := 102, tv_usec := 0 }])._event_f.map render =
      ["Exit: tls_server_reply_cb remote\n"] ∧
    (run (sample_start 1 0 0 false) [Input.timeout])._event_f.map render =
      ["Exit: tls_timeout_cb\n"] ∧
    (sample_start 1 0 3 false)._event_trace = 3 ∧
    (run (sample_start 1 0 3 false)
        [Input.accept (sample_env 5 101),
          Input.reply 5 2 [72, 73] { tv_sec := 102, tv_usec := 0 }])._event_f.map render =
      ["Accept: 1 at t=1\n", "Reply: 1 t=1\n", "HI\n", "Close: 1 local at t=1\n",
        "Exit: tls_server_reply_cb idle\n"] := by
  decide

/-- C10, amended. In every run with verbosity 0 no `Accept`, `Reply`, `Close`
or payload record is written (whatever is written is an `Exit` event); and
the reply callback writes the payload exactly on a read of positive length at
a verbosity above 1. -/
theorem trace_gated_by_verbosity (st : State) (inputs : List Input) (s : Int)
    (sd : tls_session_data) (n : Int) (rbuf : List Nat) (now : timeval) :
    (st._event_trace = 0 →
      ∃ added : List TraceEvent, (run st inputs)._event_f = st._event_f ++ added ∧
        ∀ e ∈ added, e.isAccept = false ∧ e.isReply = false ∧ e.isClose = false ∧
          e.isPayload = false) ∧
    (∃ added : List TraceEvent,
      (tls_server_reply_cb st s sd n rbuf now).st._event_f = st._event_f ++ added ∧
      ((∃ e ∈ added, e.isPayload = true) ↔ (0 < n ∧ 1 < st._event_trace))) := by
  refine ⟨fun hv => ?_, reply_cb_payload st s sd n rbuf now⟩
  obtain ⟨added, hadd, hf⟩ := run_quiet inputs st hv
  refine ⟨added, hf, fun e he => ?_⟩
  have hx := hadd e he
  cases e <;>
    simp_all [TraceEvent.isExit, TraceEvent.isAccept, TraceEvent.isReply, TraceEvent.isClose,
      TraceEvent.isPayload]

/-! ## The accept watchdog -/

/-- The reactor does not touch the timers after a callback. -/
theorem dispatched_timers (r : Result) : (dispatched r).timers = r.st.timers := by
  unfold dispatched
  split
  · rfl
  · split <;> rfl

/-- The reactor does not touch the accept timeout after a callback. -/
theorem dispatched_accept_timeout (r : Result) :
    (dispatched r)._accept_timeout_s = r.st._accept_timeout_s := by
  unfold dispatched
  split
  · rfl
  · split <;> rfl

/-- The reply callback touches neither the timers nor the accept timeout. -/
theorem reply_cb_timers (st : State) (s : Int) (sd : tls_session_data)
    (n : Int) (rbuf : List Nat) (now : timeval) :
    (tls_server_reply_cb st s sd n rbuf now).st.timers = st.timers ∧
    (tls_server_reply_cb st s sd n rbuf now).st._accept_timeout_s = st._accept_timeout_s := by
  by_cases hneg : n < 0
  · simp [tls_server_reply_cb, hneg]
  by_cases h0 : n = 0
  · rcases stream_cases st with ⟨ht, hnull⟩ | ⟨ht, hnull⟩ | ⟨ht, hnull⟩ <;> by_cases ha0 : st._accepts = 0 <;>
      by_cases ha1 : st._accepts = 1 <;>
      simp [tls_server_reply_cb, call, fprintf, fprintf_unguarded, killed, clixon_exit_set, hnull, h0, ht, ha0, ha1]
  by_cases hwin : sd.sd_t0.tv_sec + st._data_timeout_s > now.tv_sec
  · rcases stream_cases st with ⟨ht, hnull⟩ | ⟨ht, hnull⟩ | ⟨ht, hnull⟩ <;> by_cases ht1 : st._event_trace > 1 <;>
      simp [tls_server_reply_cb, tls_write_file, call, fprintf, hneg, h0, hwin, ht, ht1]
  by_cases hidle : st._idle = 0
  · rcases stream_cases st with ⟨ht, hnull⟩ | ⟨ht, hnull⟩ | ⟨ht, hnull⟩ <;> by_cases ht1 : st._event_trace > 1 <;>
      by_cases ha0 : st._accepts = 0 <;> by_cases ha1 : st._accepts = 1 <;>
      simp [tls_server_reply_cb, call, fprintf, fprintf_unguarded, killed, clixon_exit_set, hnull, hneg, h0, hwin, ht, ht1,
        hidle, ha0, ha1]
  · rcases stream_cases st with ⟨ht, hnull⟩ | ⟨ht, hnull⟩ | ⟨ht, hnull⟩ <;> by_cases ht1 : st._event_trace > 1 <;>
      simp [tls_server_reply_cb, call, fprintf, hneg, h0, hwin, ht, ht1, hidle]

/-- Unregistering the watchdog from a timer list that holds at most the
watchdog leaves no timer. -/
theorem unreg_watchdog_nil (ta : tls_accept_handle) (timers : List TimerEntry)
    (hlen : timers.length ≤ 1)
    (hall : ∀ e ∈ timers, e.fn = Callback.tls_timeout_cb ∧ e.arg = CbArg.ta ta) :
    clixon_event_unreg_timeout timers Callback.tls_timeout_cb (CbArg.ta ta) = [] := by
  unfold clixon_event_unreg_timeout
  match timers, hlen, hall with
  | [], _, _ => rfl
  | [e], _, hall =>
    have h := hall e (by simp)
    simp [List.eraseP_cons, h.1, h.2]
  | _ :: _ :: _, hlen, _ => simp at hlen

/-- Rearming: `tls_client_timeout(ta)` leaves exactly the new watchdog. -/
theorem tls_client_timeout_timers (ta : tls_accept_handle) (st : State) (now : timeval)
    (hlen : st.timers.length ≤ 1)
    (hall : ∀ e ∈ st.timers, e.fn = Callback.tls_timeout_cb ∧ e.arg = CbArg.ta ta) :
    (tls_client_timeout st (CbArg.ta ta) now).st.timers =
      [watchdog_entry ta now st._accept_timeout_s] := by
  simp [tls_client_timeout, unreg_watchdog_nil ta st.timers hlen hall,
    clixon_event_reg_timeout, watchdog_entry]

/-- The accept callback either returns 0 and leaves exactly the watchdog armed
at `env.now`, or returns a negative value and leaves the timers alone; it
never touches the accept timeout. -/
theorem accept_cb_timers (ta : tls_accept_handle) (st : State) (ss : Int) (env : AcceptEnv)
    (hlen : st.timers.length ≤ 1)
    (hall : ∀ e ∈ st.timers, e.fn = Callback.tls_timeout_cb ∧ e.arg = CbArg.ta ta) :
    (((tls_server_accept_cb st ss ta env).retval = 0 ∧
        (tls_server_accept_cb st ss ta env).st.timers =
          [watchdog_entry ta env.now st._accept_timeout_s]) ∨
      ((tls_server_accept_cb st ss ta env).retval < 0 ∧
        (tls_server_accept_cb st ss ta env).st.timers = st.timers)) ∧
    (tls_server_accept_cb st ss ta env).st._accept_timeout_s = st._accept_timeout_s := by
  by_cases hs : env.accept_ret < 0
  · simp [tls_server_accept_cb, hs]
  by_cases hc : (tls_ssl_init_connect ta.ta_ctx env.accept_ret env none).1 < 0
  · simp [tls_server_accept_cb, hs, hc]
  have hun := unreg_watchdog_nil ta st.timers hlen hall
  by_cases htr : st._event_trace = 0 <;>
    simp [tls_server_accept_cb, tls_write_file, tls_client_timeout, call, fprintf, hs, hc, htr,
      hun, clixon_event_reg_timeout, watchdog_entry]


/-- The accept callback registered by `main` is the one that the event loop
finds. -/
theorem find_listener (ta : tls_accept_handle) (T : Int) (st : State)
    (hinv : watchdog_inv ta T st) (hmem : listener_entry ta ∈ st.fds) :
    st.fds.find? (fun e => decide (e.fn = Callback.tls_server_accept_cb)) =
      some (listener_entry ta) := by
  cases hf : st.fds.find? (fun e => decide (e.fn = Callback.tls_server_accept_cb)) with
  | none =>
    rw [List.find?_eq_none] at hf
    exact absurd (hf _ hmem) (by simp [listener_entry])
  | some e =>
    have hp := List.find?_some hf
    have he := List.mem_of_find?_eq_some hf
    rw [hinv.2.2.1 e he (by simpa using hp)]

/-- One round of the event loop keeps the watchdog invariant. -/
theorem watchdog_inv_step (ta : tls_accept_handle) (T : Int) (st : State) (i : Input)
    (hinv : watchdog_inv ta T st) : watchdog_inv ta T (step st i) := by
  obtain ⟨hlen, hall, hfds, hT⟩ := hinv
  unfold step
  split
  swap
  · exact ⟨hlen, hall, hfds, hT⟩
  cases i with
  | accept env =>
    simp only
    split
    next ss fn ta1 heq =>
      have he := List.mem_of_find?_eq_some heq
      have hp := List.find?_some heq
      have hta := hfds _ he (by simpa using hp)
      simp only [listener_entry, FdEntry.mk.injEq, CbArg.ta.injEq] at hta
      obtain ⟨_, _, hta⟩ := hta
      subst hta
      obtain ⟨ht, hat⟩ := accept_cb_timers ta1 st ss env hlen hall
      unfold watchdog_inv
      rw [dispatched_timers, dispatched_fds, dispatched_accept_timeout, hat]
      refine ⟨?_, ?_, ?_, hT⟩
      · rcases ht with ⟨_, h⟩ | ⟨_, h⟩ <;> rw [h]
        · simp
        · exact hlen
      · rcases ht with ⟨_, h⟩ | ⟨_, h⟩ <;> rw [h]
        · intro e he
          rw [List.mem_singleton] at he
          subst he
          exact ⟨rfl, rfl⟩
        · exact hall
      · rcases accept_cb_fds st ss ta1 env with h | ⟨sd, h⟩ <;> rw [h]
        · exact hfds
        · intro e he hfn
          rcases List.mem_cons.1 he with h1 | h1
          · subst h1
            simp at hfn
          · exact hfds e h1 hfn
    next => exact ⟨hlen, hall, hfds, hT⟩
  | reply s n rbuf now =>
    simp only
    split
    next _ fn sd heq =>
      obtain ⟨ht, hat⟩ := reply_cb_timers st s sd n rbuf now
      unfold watchdog_inv
      rw [dispatched_timers, dispatched_fds, dispatched_accept_timeout, ht, hat]
      refine ⟨hlen, hall, ?_, hT⟩
      rcases reply_cb_fds st s sd n rbuf now with h | h <;> rw [h]
      · exact hfds
      · intro e he hfn
        exact hfds e (List.mem_of_mem_eraseP he) hfn
    next => exact ⟨hlen, hall, hfds, hT⟩
  | timeout =>
    simp only
    split
    · exact ⟨hlen, hall, hfds, hT⟩
    next e rest heq =>
      rw [heq] at hlen hall
      obtain ⟨h1, h2, h3, _, _⟩ := tls_timeout_cb_fields { st with timers := rest }
      unfold watchdog_inv
      rw [h1, h2, h3]
      refine ⟨?_, ?_, hfds, hT⟩
      · simp only [List.length_cons] at hlen
        show rest.length ≤ 1
        omega
      · intro e1 he1
        exact hall e1 (List.mem_cons_of_mem _ he1)

/-- Every run of the event loop keeps the watchdog invariant. -/
theorem watchdog_inv_run (ta : tls_accept_handle) (T : Int) (inputs : List Input)
    (st : State) (hinv : watchdog_inv ta T st) : watchdog_inv ta T (run st inputs) := by
  induction inputs generalizing st with
  | nil => exact hinv
  | cons i rest ih => exact ih (step st i) (watchdog_inv_step ta T st i hinv)

/-- The state that `main` hands to the event loop: the accept socket
registered, exactly the watchdog armed. -/
theorem main_start_shape (fp : FILE) (o : Options) (ta : tls_accept_handle) (now : timeval) :
    (main_start fp o ta now).timers = [watchdog_entry ta now (o.t.getD 60)] ∧
    (main_start fp o ta now).fds = [listener_entry ta] ∧
    (main_start fp o ta now)._accept_timeout_s = o.t.getD 60 := by
  simp [main_start, initial_state, tls_client_timeout, clixon_event_reg_fd,
    clixon_event_unreg_timeout, clixon_event_reg_timeout, watchdog_entry, listener_entry]

/-- The sum of `timeradd` in microseconds. -/
theorem timeradd_usec (a b : timeval) : (timeradd a b).usec = a.usec + b.usec := by
  unfold timeradd timeval.usec
  by_cases h : a.tv_usec + b.tv_usec ≥ 1000000
  · simp only [h, if_true]; omega
  · simp only [h, if_false]; omega

/-- C11. The accept watchdog is a singleton rearmed on each accept. `main`
leaves exactly one timer, the watchdog with deadline `now0 + T`
(`T = _accept_timeout_s`, 60 unless `-t` is given). In every state reached by
the event loop from there at most one timer, hence at most one
`tls_timeout_cb` timer, is outstanding. When the loop is running and the
accept callback returns 0, the round leaves exactly one timer: the watchdog
with argument `ta` and deadline `timeradd(env.now, {T, 0})`, which is the time
of rearming plus `T` seconds. -/
theorem watchdog_singleton (fp : FILE) (o : Options) (ta : tls_accept_handle)
    (now0 : timeval) (inputs : List Input) (env : AcceptEnv) :
    (main_start fp o ta now0).timers = [watchdog_entry ta now0 (o.t.getD 60)] ∧
    (run (main_start fp o ta now0) inputs).timers.countP TimerEntry.isWatchdog ≤ 1 ∧
    (run (main_start fp o ta now0) inputs).timers.length ≤ 1 ∧
    (running (run (main_start fp o ta now0) inputs) = true →
      (tls_server_accept_cb (run (main_start fp o ta now0) inputs) ta.ta_ss ta env).retval = 0 →
      (step (run (main_start fp o ta now0) inputs) (Input.accept env)).timers =
        [watchdog_entry ta env.now (o.t.getD 60)] ∧
      (step (run (main_start fp o ta now0) inputs) (Input.accept env)).timers.countP
        TimerEntry.isWatchdog = 1) ∧
    (watchdog_entry ta env.now (o.t.getD 60)).t.usec =
      env.now.usec + (o.t.getD 60) * 1000000 := by
  obtain ⟨ht0, hf0, hT0⟩ := main_start_shape fp o ta now0
  have hinv0 : watchdog_inv ta (o.t.getD 60) (main_start fp o ta now0) := by
    refine ⟨by rw [ht0]; simp, ?_, ?_, hT0⟩
    · intro e he
      rw [ht0, List.mem_singleton] at he
      subst he
      exact ⟨rfl, rfl⟩
    · intro e he _
      rw [hf0, List.mem_singleton] at he
      exact he
  have hinv := watchdog_inv_run ta (o.t.getD 60) inputs _ hinv0
  have hmem : listener_entry ta ∈ (run (main_start fp o ta now0) inputs).fds :=
    listener_kept_run inputs _ _ rfl (by rw [hf0]; simp)
  refine ⟨ht0, le_trans (List.countP_le_length _) hinv.1, hinv.1, ?_, ?_⟩
  · intro hrun hret
    have hstep : step (run (main_start fp o ta now0) inputs) (Input.accept env) =
        dispatched (tls_server_accept_cb (run (main_start fp o ta now0) inputs)
          ta.ta_ss ta env) := by
      unfold step
      rw [if_pos hrun]
      simp only [find_listener ta _ _ hinv hmem, listener_entry]
    obtain ⟨ht, _⟩ := accept_cb_timers ta _ ta.ta_ss env hinv.1 hinv.2.1
    rcases ht with ⟨_, h⟩ | ⟨hneg, _⟩
    · rw [hstep, dispatched_timers, h, hinv.2.2.2]
      exact ⟨rfl, by simp [TimerEntry.isWatchdog, watchdog_entry]⟩
    · omega
  · rw [watchdog_entry, timeradd_usec]
    simp [timeval.usec]

/-! ## Buffer bounds -/

/-- C12 (defect). `read_data_file` reads the file from its beginning whatever
the read position was, but nothing limits the read to the buffer: for every
file the length it returns is the length of the file, and a store
`buf[len++]` falls outside the 1024-byte buffer exactly when the file is
longer than 1024 bytes. For a file of 1025 bytes the length returned is 1025
and the store at index 1024 is outside the buffer. -/
theorem read_data_file_not_limited (fe : FILE) :
    read_data_file fe = read_data_file { fe with pos := 0 } ∧
    (read_data_file fe).2.2.1 = fe.data.length ∧
    (read_data_file fe).2.2.2 = decide (BUFLEN < fe.data.length) ∧
    BUFLEN = 1024 ∧
    (read_data_file sample_file_long).2.2.1 = 1025 ∧
    (read_data_file sample_file_long).2.2.2 = true ∧
    buf_store BUFLEN (List.replicate BUFLEN 0) 1024 65 = none := by
  have hgen : ∀ f : FILE, (read_data_file f).2.2.1 = f.data.length ∧
      (read_data_file f).2.2.2 = decide (BUFLEN < f.data.length) := by
    intro f
    obtain ⟨h1, h2⟩ := read_data_file_loop_len f.data (List.replicate BUFLEN 0) 0 false
    simp only [read_data_file, rewind, List.drop_zero]
    refine ⟨by rw [h1]; omega, ?_⟩
    rw [h2]
    by_cases hlt : BUFLEN < f.data.length
    · have h0 : 0 < f.data.length := by omega
      simp [hlt, h0]
    · simp [hlt]
  have hlen : sample_file_long.data.length = 1025 := by
    simp only [sample_file_long, List.length_replicate]
  refine ⟨rfl, (hgen fe).1, (hgen fe).2, rfl, ?_, ?_, ?_⟩
  · rw [(hgen sample_file_long).1, hlen]
  · rw [(hgen sample_file_long).2, hlen]
    simp [BUFLEN]
  · exact buf_store_out_of_bounds BUFLEN _ 1024 65 (by simp [BUFLEN])

/-- C13 (defect). `SSL_read(ssl, buf, sizeof(buf))` can return 1024, and then
the terminator store `buf[n] = 0` is at index 1024, outside `char buf[1024]`:
the checked store takes its error branch and the callback reports it, in
every state and on every path. For the lengths 1 to 1023 the store is inside
the buffer. -/
theorem reply_terminator_store (st : State) (s : Int) (sd : tls_session_data)
    (rbuf : List Nat) (now : timeval) :
    SIZEOF_BUF = 1024 ∧
    buf_store SIZEOF_BUF rbuf 1024 0 = none ∧
    (tls_server_reply_cb st s sd 1024 rbuf now).oob = true ∧
    (∀ n : Int, 1 ≤ n → n ≤ 1024 →
      ((buf_store SIZEOF_BUF rbuf n 0).isNone = decide (n = 1024))) := by
  have hnone : buf_store SIZEOF_BUF rbuf 1024 0 = none := by
    simp [buf_store, SIZEOF_BUF]
  refine ⟨rfl, hnone, ?_, ?_⟩
  · by_cases hwin : sd.sd_t0.tv_sec + st._data_timeout_s > now.tv_sec
    · rcases stream_cases st with ⟨ht, hnull⟩ | ⟨ht, hnull⟩ | ⟨ht, hnull⟩ <;> by_cases ht1 : st._event_trace > 1 <;>
        simp [tls_server_reply_cb, tls_write_file, call, fprintf, hwin, ht, ht1, hnone]
    by_cases hidle : st._idle = 0
    · rcases stream_cases st with ⟨ht, hnull⟩ | ⟨ht, hnull⟩ | ⟨ht, hnull⟩ <;> by_cases ht1 : st._event_trace > 1 <;>
        by_cases ha0 : st._accepts = 0 <;> by_cases ha1 : st._accepts = 1 <;>
        simp [tls_server_reply_cb, call, fprintf, fprintf_unguarded, killed, clixon_exit_set, hnull, hwin, ht, ht1,
          hidle, ha0, ha1, hnone]
    · rcases stream_cases st with ⟨ht, hnull⟩ | ⟨ht, hnull⟩ | ⟨ht, hnull⟩ <;> by_cases ht1 : st._event_trace > 1 <;>
        simp [tls_server_reply_cb, call, fprintf, hwin, ht, ht1, hidle, hnone]
  · intro n h1 h2
    unfold buf_store
    by_cases h : n = 1024
    · subst h
      simp [SIZEOF_BUF]
    · have hin : 0 ≤ n ∧ n < ((SIZEOF_BUF : Nat) : Int) := by
        simp only [SIZEOF_BUF]
        omega
      simp [hin, h]

end Callhome
